import Mathlib

/-!
Verification development for the ray-rag repository (two Python programs:
`data_loader.py`, a batch loader that reads JSONL records, embeds a text
field and upserts vector points into a Qdrant collection; and `gradio.py`,
a demo UI that posts a query to three HTTP endpoints and renders the three
responses).

The embedding models Python values flowing through the two programs as a
`Json` type; operations that can raise in Python (subscripting a non-dict,
iterating a non-iterable, formatting a non-number) return `Except String`.
External collaborators (the Qdrant client, the sentence-embedding model,
`json.loads`, `hash`, `time.time`, the HTTP transport) are opaque
parameters; numeric JSON payload values and embedding components are
modelled as integers (floating-point behaviour is outside the claims).
-/

/-- A Python/JSON value as it flows through both programs. -/
inductive Json where
  | null
  | bool (b : Bool)
  | num (n : Int)
  | str (s : String)
  | arr (xs : List Json)
  | obj (fields : List (String × Json))

mutual
/-- Python structural equality `==` on JSON values (used by the `in`
operator on lists). -/
def jeq : Json → Json → Bool
  | .null, .null => true
  | .bool a, .bool b => a == b
  | .num a, .num b => a == b
  | .str a, .str b => a == b
  | .arr a, .arr b => jeqList a b
  | .obj a, .obj b => jeqFields a b
  | _, _ => false
termination_by structural j => j

def jeqList : List Json → List Json → Bool
  | [], [] => true
  | a :: as, b :: bs => jeq a b && jeqList as bs
  | _, _ => false
termination_by structural l => l

def jeqFields : List (String × Json) → List (String × Json) → Bool
  | [], [] => true
  | (k, v) :: as, (l, w) :: bs => k == l && jeq v w && jeqFields as bs
  | _, _ => false
termination_by structural l => l
end

mutual
/-- Python `repr` of a JSON value (approximated: strings are quoted with a
single quote; dict/list layout follows CPython). Only used through `pyStr`
below, for f-string interpolation. -/
def pyRepr : Json → String
  | .null => "None"
  | .bool true => "True"
  | .bool false => "False"
  | .num n => toString n
  | .str s => "\x27" ++ s ++ "\x27"
  | .arr xs => "[" ++ pyReprList xs ++ "]"
  | .obj fs => "\x7b" ++ pyReprFields fs ++ "\x7d"
termination_by structural j => j

def pyReprList : List Json → String
  | [] => ""
  | [x] => pyRepr x
  | x :: y :: xs => pyRepr x ++ ", " ++ pyReprList (y :: xs)
termination_by structural l => l

def pyReprFields : List (String × Json) → String
  | [] => ""
  | [(k, v)] => "\x27" ++ k ++ "\x27: " ++ pyRepr v
  | (k, v) :: y :: xs => "\x27" ++ k ++ "\x27: " ++ pyRepr v ++ ", " ++ pyReprFields (y :: xs)
termination_by structural l => l
end

/-- Python `str(x)`, as applied by f-string interpolation `f"...{x}..."`. -/
def pyStr : Json → String
  | .str s => s
  | .null => pyRepr .null
  | .bool b => pyRepr (.bool b)
  | .num n => pyRepr (.num n)
  | .arr xs => pyRepr (.arr xs)
  | .obj fs => pyRepr (.obj fs)

/-- Whether the character list `pat` is a prefix of `s` (Boolean, by
character equality); helper for Python substring containment. -/
def charsPrefixB : List Char → List Char → Bool
  | [], _ => true
  | _ :: _, [] => false
  | a :: as, b :: bs => a == b && charsPrefixB as bs

/-- Whether the character list `pat` occurs contiguously in `s`; helper for
Python `"k" in some_string` (substring containment). -/
def charsInfixB (pat : List Char) : List Char → Bool
  | [] => charsPrefixB pat []
  | c :: rest => charsPrefixB pat (c :: rest) || charsInfixB pat rest

/-- Python `k in x` for a string key `k`: key containment for dicts,
element equality for lists, substring containment for strings; raises
`TypeError` on other values. -/
def pyContains (j : Json) (k : String) : Except String Bool :=
  match j with
  | .obj fs => .ok (fs.any (fun p => p.1 == k))
  | .arr xs => .ok (xs.any (fun x => jeq x (.str k)))
  | .str s => .ok (charsInfixB k.data s.data)
  | _ => .error "TypeError: argument is not iterable"

/-- Python subscript `x[k]` with a string key: dict lookup (KeyError when
absent); raises `TypeError` on non-dict values. -/
def pyGet (j : Json) (k : String) : Except String Json :=
  match j with
  | .obj fs =>
    match fs.lookup k with
    | some v => .ok v
    | none => .error ("KeyError: " ++ k)
  | _ => .error "TypeError: value is not subscriptable by a string"

/-- Python `x.get(k, d)`: dict lookup with a default; raises
`AttributeError` when `x` is not a dict. -/
def pyGetD (j : Json) (k : String) (d : Json) : Except String Json :=
  match j with
  | .obj fs => .ok ((fs.lookup k).getD d)
  | _ => .error "AttributeError: value has no attribute get"

/-- Python iteration `for v in x`: list elements, string characters, dict
keys; raises `TypeError` on other values. -/
def pyIter (j : Json) : Except String (List Json) :=
  match j with
  | .arr xs => .ok xs
  | .str s => .ok (s.data.map (fun c => .str (String.mk [c])))
  | .obj fs => .ok (fs.map (fun p => .str p.1))
  | _ => .error "TypeError: value is not iterable"

/-- Python format `f"{x:.4f}"` on a JSON cell. JSON numbers are modelled as
integers, so an integer `n` formats as `toString n ++ ".0000"` (exact for
integer-valued scores); booleans format as their integer value; other
values raise. -/
def pyFormat4f (j : Json) : Except String String :=
  match j with
  | .num n => .ok (toString n ++ ".0000")
  | .bool b => .ok ((if b then "1" else "0") ++ ".0000")
  | _ => .error "TypeError: unsupported format string"

/-- Python `x[:n] + suffix`: character slicing then string concatenation;
works only when `x` is a string (a list would slice but then fail to
concatenate with a string; other values fail to slice). -/
def pySliceConcat (j : Json) (n : Nat) (suffix : String) : Except String String :=
  match j with
  | .str s => .ok (String.mk (s.data.take n) ++ suffix)
  | _ => .error "TypeError: unsupported slice or concatenation"

/-! ## The batch loader (`data_loader.py`) -/

/-- A vector point as assembled by the loader: the dict
`{"id": ..., "vector": ..., "payload": ...}` (data_loader.py lines 55-59).
Embedding components are modelled as integers. -/
structure Point where
  id : Int
  vector : List Int
  payload : Json

/-- External collaborators of the loader, passed as oracles:
`loads` is `json.loads` on one line; `encode` is
`model.encode(...).tolist()` (it may raise, which the loader does not
catch); `hashFn` is Python `hash` on strings; `timeStr` is the decimal
rendering of the `k`-th `time.time()` reading of the run (one reading per
encoded record, in order). -/
structure LoaderEnv where
  loads : String → Except String Json
  encode : Json → Except String (List Int)
  hashFn : String → Int
  timeStr : Nat → String

/-- An observable call made by the loader on the Qdrant client. -/
inductive Event where
  | recreate_collection (collection_name : String) (size : Nat) (distance : String)
  | upsert (collection_name : String) (points : List Point)
  | get_collection (collection_name : String)

/-- A whitespace character in the sense of Python `str.strip` (ASCII
whitespace; exotic Unicode spaces are out of scope). -/
def pyIsSpace (c : Char) : Bool :=
  c == ' ' || c == '\t' || c == '\n' || c == '\r' || c == '\x0b' || c == '\x0c'

/-- Truthiness test of `line.strip()` in `load_jsonl`: the stripped line is
empty exactly when every character of the line is whitespace. -/
def isBlankLine (line : String) : Bool :=
  line.data.all pyIsSpace

/-- `load_jsonl` (data_loader.py lines 8-15): read lines, skip blank lines
(`if line.strip():`), parse each remaining line with `json.loads`; a parse
failure raises and aborts the whole call. -/
def load_jsonl (loads : String → Except String Json) : List String → Except String (List Json)
  | [] => .ok []
  | line :: rest =>
    if isBlankLine line then load_jsonl loads rest
    else
      match loads line with
      | .error e => .error e
      | .ok j =>
        match load_jsonl loads rest with
        | .error e => .error e
        | .ok js => .ok (j :: js)

/-- The per-batch loop body (data_loader.py lines 48-60): for each item,
`if "text" not in item: continue` (with a console notice, not modelled),
else encode `item["text"]` and append the point
`{"id": abs(hash(f"{item['text']}_{time.time()}")), "vector": ...,
"payload": item}`. `k` counts the `time.time()` readings consumed so far.
Any raise aborts the run. -/
def processBatch (env : LoaderEnv) : List Json → Nat → Except String (List Point × Nat)
  | [], k => .ok ([], k)
  | item :: rest, k =>
    match pyContains item "text" with
    | .error e => .error e
    | .ok false => processBatch env rest k
    | .ok true =>
      match pyGet item "text" with
      | .error e => .error e
      | .ok t =>
        match env.encode t with
        | .error e => .error e
        | .ok emb =>
          let point : Point :=
            { id := ((env.hashFn (pyStr t ++ "_" ++ env.timeStr k)).natAbs : Int)
              vector := emb
              payload := item }
          match processBatch env rest (k + 1) with
          | .error e => .error e
          | .ok (pts, j) => .ok (point :: pts, j)

/-- Fuel-driven helper for `chunksOf` (fuel bounds the recursion depth; it
is instantiated with the list length, which always suffices). -/
def chunksOfAux (n : Nat) : Nat → List α → List (List α)
  | 0, _ => []
  | _ + 1, [] => []
  | fuel + 1, x :: xs => ((x :: xs).take n) :: chunksOfAux n fuel ((x :: xs).drop n)

/-- The batch slicing `data[i:i + batch_size] for i in range(0, len(data),
batch_size)` (data_loader.py line 44-45). -/
def chunksOf (n : Nat) (l : List α) : List (List α) :=
  chunksOfAux n l.length l

/-- The batch loop (data_loader.py lines 44-68): process each batch; if the
batch produced a non-empty vector list (`if vectors:`), upsert it and add
its size to `total_processed`. Returns, per batch, `some points` when an
upsert call was made for it and `none` when not, together with the final
`total_processed` (or the propagated error). -/
def runChunks (env : LoaderEnv) : List (List Json) → Nat → Nat → List (Option (List Point)) × Except String Nat
  | [], _, total => ([], .ok total)
  | batch :: rest, k, total =>
    match processBatch env batch k with
    | .error e => ([], .error e)
    | .ok (pts, j) =>
      if pts.isEmpty then
        let r := runChunks env rest j total
        (none :: r.1, r.2)
      else
        let r := runChunks env rest j (total + pts.length)
        (some pts :: r.1, r.2)

/-- The upsert calls of a run, in order, as trace events
(data_loader.py lines 63-67). -/
def upsertEvents (calls : List (Option (List Point))) : List Event :=
  (calls.filterMap id).map (fun pts => Event.upsert "knowledge_base" pts)

/-- The source function `main` (data_loader.py lines 17-76; named
`loader_main` here because Lean reserves `main` for an IO entry point):
load the JSONL file; recreate the collection `knowledge_base` with vector
size 384 and Cosine distance; process and upload the data in batches of
100; finally query the collection info. Returns the trace of Qdrant-client
calls actually issued together with the final `total_processed` (or the
propagated error; the trace keeps the calls issued before the raise).
Console output and the returned collection counts are external effects
outside the model. -/
def loader_main (env : LoaderEnv) (lines : List String) : List Event × Except String Nat :=
  match load_jsonl env.loads lines with
  | .error e => ([], .error e)
  | .ok data =>
    let r := runChunks env (chunksOf 100 data) 0 0
    let tr := Event.recreate_collection "knowledge_base" 384 "Cosine" :: upsertEvents r.1
    match r.2 with
    | .ok total => (tr ++ [Event.get_collection "knowledge_base"], .ok total)
    | .error e => (tr, .error e)

/-- A record qualifies when the loader's test `"text" not in item` lets it
through, i.e. `pyContains item "text"` returns `true`. -/
def qualifiesB (j : Json) : Bool :=
  match pyContains j "text" with
  | .ok true => true
  | _ => false

/-- A record is skipped when `pyContains item "text"` returns `false`
(the loader logs and continues). -/
def skippedB (j : Json) : Bool :=
  match pyContains j "text" with
  | .ok false => true
  | _ => false

/-- Spec wording for claim C1: the record "contains a non-empty text
field" (a `"text"` key whose value is not the empty string). -/
def hasNonemptyTextB (j : Json) : Bool :=
  match j with
  | .obj fs =>
    match fs.lookup "text" with
    | some v => !(jeq v (.str ""))
    | none => false
  | _ => false

/-- Whether a JSON value is an object (the claims speak of "JSON object"
lines). -/
def isObjB : Json → Bool
  | .obj _ => true
  | _ => false

/-- Number of upsert calls in a trace. -/
def numUpserts (tr : List Event) : Nat :=
  tr.countP (fun e => match e with | .upsert _ _ => true | _ => false)

/-- Total number of points over all upsert calls of a trace. -/
def upsertTotal (tr : List Event) : Nat :=
  (tr.map (fun e => match e with | .upsert _ pts => pts.length | _ => 0)).sum

/-- The point identifiers of all upsert calls of a trace, in order. -/
def pointIds (tr : List Event) : List Int :=
  tr.flatMap (fun e => match e with | .upsert _ pts => pts.map Point.id | _ => [])

/-! ## The comparison UI (`gradio.py`) -/

/-- The outcome of one `requests.post` call as observed by the UI:
either a response with a status code, a raw body text and the result of
parsing that body as JSON (`response.json()`, which may itself raise), or
a raised exception (timeout or any transport failure) carrying `str(e)`. -/
inductive HttpOutcome where
  | response (status_code : Nat) (text : String) (json : Except String Json)
  | exn (msg : String)

/-- `make_api_request` (gradio.py lines 28-69), response handling: a 200
status yields the parsed body; a non-200 status yields
`{"error": f"API Error: {status}", "details": response.text}`; any
exception inside the `try` (transport failure, timeout, or a body that
fails to parse on `.json()`) yields `{"error": f"Request Error: {str(e)}"}`.
The payload assembly for the three endpoints (lines 32-51) involves the
float constant `TEMPERATURE` and is not modelled; no claim refers to it,
and the handling of the response does not depend on it. -/
def make_api_request (endpoint query : String) (out : HttpOutcome) : Json :=
  match out with
  | .exn msg => .obj [("error", .str ("Request Error: " ++ msg))]
  | .response status text pj =>
    if status = 200 then
      match pj with
      | .ok j => j
      | .error e => .obj [("error", .str ("Request Error: " ++ e))]
    else
      .obj [("error", .str ("API Error: " ++ toString status)), ("details", .str text)]

/-- A dataframe row, as the Python dict fed to `pd.DataFrame` (column name
to cell value, in insertion order). -/
abbrev Row := List (String × Json)

/-- A dataframe: the list of row dicts fed to `pd.DataFrame`. -/
abbrev Df := List Row

/-- The row-building loop of the retrieve table (gradio.py lines 87-94):
for each result, `{"Result #": i+1, "Source": result.get('source',
'Unknown'), "Score": f"{result.get('score', 0):.4f}", "Text Preview":
result.get('text', '')[:100] + "..."}`. -/
def retrieve_rows (i : Nat) : List Json → Except String Df
  | [] => .ok []
  | r :: rs =>
    match pyGetD r "source" (.str "Unknown") with
    | .error e => .error e
    | .ok src =>
      match pyGetD r "score" (.num 0) with
      | .error e => .error e
      | .ok sc =>
        match pyFormat4f sc with
        | .error e => .error e
        | .ok scs =>
          match pyGetD r "text" (.str "") with
          | .error e => .error e
          | .ok t =>
            match pySliceConcat t 100 "..." with
            | .error e => .error e
            | .ok prev =>
              match retrieve_rows (i + 1) rs with
              | .error e => .error e
              | .ok rest =>
                .ok ([("Result #", .num (i + 1 : Nat)), ("Source", src),
                      ("Score", .str scs), ("Text Preview", .str prev)] :: rest)

/-- The retrieve-table branch (gradio.py lines 85-95): built only when
`"error" not in retrieve_results and "results" in retrieve_results`,
otherwise `None`. -/
def retrieve_df_of (rr : Json) : Except String (Option Df) :=
  match pyContains rr "error" with
  | .error e => .error e
  | .ok true => .ok none
  | .ok false =>
    match pyContains rr "results" with
    | .error e => .error e
    | .ok false => .ok none
    | .ok true =>
      match pyGetD rr "results" (.arr []) with
      | .error e => .error e
      | .ok v =>
        match pyIter v with
        | .error e => .error e
        | .ok items =>
          match retrieve_rows 0 items with
          | .error e => .error e
          | .ok rows => .ok (some rows)

/-- The result-div loop of the retrieve panel (gradio.py lines 102-109). -/
def retrieve_divs (i : Nat) : List Json → Except String String
  | [] => .ok ""
  | r :: rs =>
    match pyGetD r "source" (.str "Unknown") with
    | .error e => .error e
    | .ok src =>
      match pyGetD r "score" (.num 0) with
      | .error e => .error e
      | .ok sc =>
        match pyGetD r "text" (.str "") with
        | .error e => .error e
        | .ok t =>
          match pySliceConcat t 150 "..." with
          | .error e => .error e
          | .ok text =>
            match pyFormat4f sc with
            | .error e => .error e
            | .ok scs =>
              match retrieve_divs (i + 1) rs with
              | .error e => .error e
              | .ok rest =>
                .ok ("<div style=\x27margin-bottom: 10px; padding: 10px; border: 1px solid #ddd; border-radius: 5px;\x27>"
                  ++ "<strong>Result " ++ toString (i + 1) ++ ":</strong> " ++ pyStr src
                  ++ " (Score: " ++ scs ++ ")<br>"
                  ++ "<p>" ++ text ++ "</p>" ++ "</div>" ++ rest)

/-- The retrieve panel HTML (gradio.py lines 98-109): header plus either
an error paragraph or one div per result. -/
def retrieve_html_of (rr : Json) : Except String String :=
  match pyContains rr "error" with
  | .error e => .error e
  | .ok true =>
    match pyGet rr "error" with
    | .error e => .error e
    | .ok ev => .ok ("<h3>Vector DB Results</h3>" ++ "<p>Error: " ++ pyStr ev ++ "</p>")
  | .ok false =>
    match pyGetD rr "results" (.arr []) with
    | .error e => .error e
    | .ok v =>
      match pyIter v with
      | .error e => .error e
      | .ok items =>
        match retrieve_divs 0 items with
        | .error e => .error e
        | .ok body => .ok ("<h3>Vector DB Results</h3>" ++ body)

/-- The generation panel HTML (gradio.py lines 112-121): header plus
either an error paragraph or a div with model and answer. -/
def generate_html_of (gr : Json) : Except String String :=
  match pyContains gr "error" with
  | .error e => .error e
  | .ok true =>
    match pyGet gr "error" with
    | .error e => .error e
    | .ok ev => .ok ("<h3>LLM Response (No Context)</h3>" ++ "<p>Error: " ++ pyStr ev ++ "</p>")
  | .ok false =>
    match pyGetD gr "model" (.str "Unknown") with
    | .error e => .error e
    | .ok m =>
      match pyGetD gr "answer" (.str "No answer provided.") with
      | .error e => .error e
      | .ok a =>
        .ok ("<h3>LLM Response (No Context)</h3>"
          ++ "<div style=\x27padding: 15px; border: 1px solid #ddd; border-radius: 5px; background-color: #f9f9f9;\x27>"
          ++ "<strong>Model:</strong> " ++ pyStr m ++ "<br><br>"
          ++ "<p>" ++ pyStr a ++ "</p>" ++ "</div>")

/-- The RAG panel HTML (gradio.py lines 124-136): header plus either an
error paragraph or a div with model, context count and answer. -/
def rag_html_of (rr : Json) : Except String String :=
  match pyContains rr "error" with
  | .error e => .error e
  | .ok true =>
    match pyGet rr "error" with
    | .error e => .error e
    | .ok ev => .ok ("<h3>RAG-Enhanced Response</h3>" ++ "<p>Error: " ++ pyStr ev ++ "</p>")
  | .ok false =>
    match pyGetD rr "model" (.str "Unknown") with
    | .error e => .error e
    | .ok m =>
      match pyGetD rr "answer" (.str "No answer provided.") with
      | .error e => .error e
      | .ok a =>
        match pyGetD rr "context_count" (.num 0) with
        | .error e => .error e
        | .ok cc =>
          .ok ("<h3>RAG-Enhanced Response</h3>"
            ++ "<div style=\x27padding: 15px; border: 1px solid #ddd; border-radius: 5px; background-color: #f9f9f9;\x27>"
            ++ "<strong>Model:</strong> " ++ pyStr m ++ "<br>"
            ++ "<em>Used " ++ pyStr cc ++ " context documents</em><br><br>"
            ++ "<p>" ++ pyStr a ++ "</p>" ++ "</div>")

/-- The generation table (gradio.py lines 139-145): one row with model,
query and answer, built only when `"error" not in generate_results`. -/
def generate_df_of (query : String) (gr : Json) : Except String (Option Df) :=
  match pyContains gr "error" with
  | .error e => .error e
  | .ok true => .ok none
  | .ok false =>
    match pyGetD gr "model" (.str "Unknown") with
    | .error e => .error e
    | .ok m =>
      match pyGetD gr "answer" (.str "No answer provided.") with
      | .error e => .error e
      | .ok a =>
        .ok (some [[("Model", m), ("Query", .str query), ("Answer", a)]])

/-- The RAG table (gradio.py lines 147-154): one row with model, query,
context count and answer, built only when `"error" not in rag_results`. -/
def rag_df_of (query : String) (rr : Json) : Except String (Option Df) :=
  match pyContains rr "error" with
  | .error e => .error e
  | .ok true => .ok none
  | .ok false =>
    match pyGetD rr "model" (.str "Unknown") with
    | .error e => .error e
    | .ok m =>
      match pyGetD rr "context_count" (.num 0) with
      | .error e => .error e
      | .ok cc =>
        match pyGetD rr "answer" (.str "No answer provided.") with
        | .error e => .error e
        | .ok a =>
          .ok (some [[("Model", m), ("Query", .str query), ("Context Count", cc), ("Answer", a)]])

/-- The row-building loop of the context table (gradio.py lines 159-166);
the text cell is the raw `context.get('text', 'No text available')`
value, with no slicing. -/
def context_rows (i : Nat) : List Json → Except String Df
  | [] => .ok []
  | c :: cs =>
    match pyGetD c "source" (.str "Unknown") with
    | .error e => .error e
    | .ok src =>
      match pyGetD c "score" (.num 0) with
      | .error e => .error e
      | .ok sc =>
        match pyFormat4f sc with
        | .error e => .error e
        | .ok scs =>
          match pyGetD c "text" (.str "No text available") with
          | .error e => .error e
          | .ok t =>
            match context_rows (i + 1) cs with
            | .error e => .error e
            | .ok rest =>
              .ok ([("Context #", .num (i + 1 : Nat)), ("Source", src),
                    ("Score", .str scs), ("Text", t)] :: rest)

/-- The context-table branch (gradio.py lines 157-167): built only when
`"error" not in rag_results and "contexts" in rag_results`. -/
def context_df_of (rr : Json) : Except String (Option Df) :=
  match pyContains rr "error" with
  | .error e => .error e
  | .ok true => .ok none
  | .ok false =>
    match pyContains rr "contexts" with
    | .error e => .error e
    | .ok false => .ok none
    | .ok true =>
      match pyGetD rr "contexts" (.arr []) with
      | .error e => .error e
      | .ok v =>
        match pyIter v with
        | .error e => .error e
        | .ok items =>
          match context_rows 0 items with
          | .error e => .error e
          | .ok rows => .ok (some rows)

/-- The eight values returned by `query_all_endpoints` (gradio.py lines
171-180), in order; the `gr.HTML`/`gr.Markdown` wrappers are display
plumbing outside the model. -/
structure QueryOutputs where
  retrieve_html : String
  generate_html : String
  rag_html : String
  retrieve_df : Option Df
  generate_df : Option Df
  rag_df : Option Df
  context_df : Option Df
  status_msg : String

/-- Python format `f"{x:.2f}"` for the elapsed-time readout; wall-clock
elapsed time is an external input, modelled at whole-second granularity so
that the format is exact. -/
def pyFormat2f (n : Int) : String :=
  toString n ++ ".00"

/-- `query_all_endpoints` (gradio.py lines 71-180): make the three
requests (their outcomes are the three `HttpOutcome` inputs; the elapsed
wall-clock time is the `elapsed_time` input), then derive the three panel
HTMLs and the four tables, in source order. A raise in any derivation
step propagates out of the function as `.error`. -/
def query_all_endpoints (query : String) (o1 o2 o3 : HttpOutcome) (elapsed_time : Int) : Except String QueryOutputs :=
  let retrieve_results := make_api_request "retrieve" query o1
  let generate_results := make_api_request "generate" query o2
  let rag_results := make_api_request "rag" query o3
  match retrieve_df_of retrieve_results with
  | .error e => .error e
  | .ok retrieve_df =>
    match retrieve_html_of retrieve_results with
    | .error e => .error e
    | .ok retrieve_html =>
      match generate_html_of generate_results with
      | .error e => .error e
      | .ok generate_html =>
        match rag_html_of rag_results with
        | .error e => .error e
        | .ok rag_html =>
          match generate_df_of query generate_results with
          | .error e => .error e
          | .ok generate_df =>
            match rag_df_of query rag_results with
            | .error e => .error e
            | .ok rag_df =>
              match context_df_of rag_results with
              | .error e => .error e
              | .ok context_df =>
                .ok { retrieve_html := retrieve_html
                      generate_html := generate_html
                      rag_html := rag_html
                      retrieve_df := retrieve_df
                      generate_df := generate_df
                      rag_df := rag_df
                      context_df := context_df
                      status_msg := "Query completed in " ++ pyFormat2f elapsed_time ++ " seconds" }

/-- Whether an `Except` result is a success. -/
def exceptOk : Except String α → Bool
  | .ok _ => true
  | .error _ => false

/-- Whether a JSON value is a dict with an `"error"` key (the shape of the
structured error objects `make_api_request` builds). -/
def hasErrorKeyB : Json → Bool
  | .obj fs => fs.any (fun p => p.1 == "error")
  | _ => false

/-! ## Concrete instances used by witnesses and counterexamples -/

/-- A concrete loader environment. `loads` parses the four line shapes
used in the examples exactly as `json.loads` would: `"t"` is mapped to a
record with a text field, `"e"` to a record without one, `"n"` to a record
whose text field is the empty string, and `"5"` to the JSON number 5
(valid JSON that is not an object); any other line fails to parse.
`encode` returns a fixed embedding, the hash oracle is the string length,
and every `time.time()` reading renders as `"0"`. -/
def exEnv : LoaderEnv where
  loads s :=
    if s = "t" then .ok (.obj [("text", .str "x")])
    else if s = "e" then .ok (.obj [("foo", .str "bar")])
    else if s = "n" then .ok (.obj [("text", .str "")])
    else if s = "5" then .ok (.num 5)
    else .error "Expecting value: line 1 column 1 (char 0)"
  encode _ := .ok [0]
  hashFn s := (s.length : Int)
  timeStr _ := "0"

/-- The same environment with a different wall clock: every `time.time()`
reading renders as `"10"`. -/
def exEnvLate : LoaderEnv :=
  { exEnv with timeStr := fun _ => "10" }

/-- UI outcome: a failing endpoint (HTTP 500 with a raw error body). -/
def httpRetrieveFail : HttpOutcome :=
  .response 500 "upstream exploded" (.error "nope")

/-- UI outcome: a successful retrieve response with one result. -/
def httpRetrieveOk : HttpOutcome :=
  .response 200 "okbody"
    (.ok (.obj [("results", .arr [.obj [("source", .str "s"), ("score", .num 3), ("text", .str "hello")]])]))

/-- UI outcome: a successful generate response. -/
def httpGenerateOk : HttpOutcome :=
  .response 200 "gbody" (.ok (.obj [("model", .str "m1"), ("answer", .str "ans g")]))

/-- UI outcome: a successful rag response with one context. -/
def httpRagOk : HttpOutcome :=
  .response 200 "rbody"
    (.ok (.obj [("model", .str "m2"), ("answer", .str "ans r"), ("context_count", .num 2),
                ("contexts", .arr [.obj [("source", .str "s1"), ("score", .num 1), ("text", .str "ctx")]])]))

/-- UI outcome: HTTP 200 whose JSON body is a list, not an object (a shape
`make_api_request` passes through unchanged). -/
def httpListBody : HttpOutcome :=
  .response 200 "[1]" (.ok (.arr [.num 1]))

/-- One entry of a `results`/`contexts` list renders without raising: it
is a dict whose `score`, when present, is a number and whose `text`, when
present, is a string (absent fields fall back to defaults). -/
def goodEntryB (x : Json) : Bool :=
  match x with
  | .obj fs =>
    (match fs.lookup "score" with
     | some (.num _) => true
     | some _ => false
     | none => true) &&
    (match fs.lookup "text" with
     | some (.str _) => true
     | some _ => false
     | none => true)
  | _ => false

/-- A `results`/`contexts` value iterates as a list of renderable
entries. -/
def goodListB (v : Json) : Bool :=
  match v with
  | .arr xs => xs.all goodEntryB
  | _ => false

/-- A per-endpoint result object that the UI derivations can render
without raising: either a structured error object, or a dict whose
`results` and `contexts` fields (defaulting to empty lists) are lists of
renderable entries. Every failure conversion of `make_api_request`
satisfies this; a 200 body can violate it. -/
def wellFormedResult (j : Json) : Bool :=
  match j with
  | .obj fs =>
    fs.any (fun p => p.1 == "error") ||
    (goodListB ((fs.lookup "results").getD (.arr [])) &&
     goodListB ((fs.lookup "contexts").getD (.arr [])))
  | _ => false

/-- The input data loaded for the C2 counterexample: 101 records, of which
only the first and the last carry a text field. -/
def exData2 : List Json :=
  Json.obj [("text", Json.str "x")] ::
    (List.replicate 99 (Json.obj [("foo", Json.str "bar")]) ++ [Json.obj [("text", Json.str "x")]])

/-- The input data loaded for the C3 counterexample: 100 records with a
text field followed by one without. -/
def exData3 : List Json :=
  List.replicate 100 (Json.obj [("text", Json.str "x")]) ++ [Json.obj [("foo", Json.str "bar")]]

/-- A default `QueryOutputs` value (used only to extract the payload of a
successful `query_all_endpoints` run in concrete statements). -/
def emptyOutputs : QueryOutputs :=
  { retrieve_html := "", generate_html := "", rag_html := "",
    retrieve_df := none, generate_df := none, rag_df := none,
    context_df := none, status_msg := "" }

/-- Extract the payload of a successful run, with a fallback. -/
def getOutput (r : Except String QueryOutputs) : QueryOutputs :=
  match r with
  | .ok u => u
  | .error _ => emptyOutputs

/-! ## Helper lemmas -/

theorem any_key_lookup (k : String) :
    ∀ fs : List (String × Json), fs.any (fun p => p.1 == k) = true →
      ∃ v, fs.lookup k = some v := by
  intro fs h
  induction fs with
  | nil => simp at h
  | cons p rest ih =>
    obtain ⟨pk, pv⟩ := p
    by_cases hk : pk = k
    · subst hk
      exact ⟨pv, by simp [List.lookup]⟩
    · have hk2 : (k == pk) = false := beq_eq_false_iff_ne.mpr (Ne.symm hk)
      have hk3 : (pk == k) = false := beq_eq_false_iff_ne.mpr hk
      simp only [List.any_cons, hk3, Bool.false_or] at h
      obtain ⟨v, hv⟩ := ih h
      exact ⟨v, by simp [List.lookup, hk2, hv]⟩

theorem filterMap_id_length_of_no_none :
    ∀ calls : List (Option (List Point)), (∀ c ∈ calls, c ≠ none) →
      (calls.filterMap id).length = calls.length := by
  intro calls h
  induction calls with
  | nil => simp
  | cons c rest ih =>
    cases c with
    | none => exact absurd rfl (h none (by simp))
    | some pts =>
      simp only [List.filterMap_cons, id, List.length_cons]
      rw [ih (fun c hc => h c (by simp [hc]))]

theorem chunksOfAux_eq_nil {α : Type} (n : Nat) :
    ∀ (fuel : Nat) (l : List α), l.length ≤ fuel → (chunksOfAux n fuel l = [] ↔ l = []) := by
  intro fuel l hl
  cases fuel with
  | zero =>
    have hnil : l = [] := List.length_eq_zero.mp (Nat.le_zero.mp hl)
    subst hnil; simp [chunksOfAux]
  | succ f =>
    cases l with
    | nil => simp [chunksOfAux]
    | cons x xs => simp [chunksOfAux]

theorem chunksOfAux_join {α : Type} (n : Nat) (hn : 0 < n) :
    ∀ (fuel : Nat) (l : List α), l.length ≤ fuel → (chunksOfAux n fuel l).flatten = l := by
  intro fuel
  induction fuel with
  | zero =>
    intro l hl
    have hnil : l = [] := List.length_eq_zero.mp (Nat.le_zero.mp hl)
    subst hnil; rfl
  | succ fuel ih =>
    intro l hl
    cases l with
    | nil => rfl
    | cons x xs =>
      simp only [List.length_cons] at hl
      simp only [chunksOfAux, List.flatten_cons]
      rw [ih ((x :: xs).drop n) (by simp only [List.length_drop, List.length_cons]; omega)]
      exact List.take_append_drop n (x :: xs)

theorem chunksOf_join {α : Type} (n : Nat) (hn : 0 < n) (l : List α) :
    (chunksOf n l).flatten = l :=
  chunksOfAux_join n hn l.length l le_rfl

theorem chunksOfAux_ne_nil {α : Type} (n : Nat) (hn : 0 < n) :
    ∀ (fuel : Nat) (l : List α) (c : List α), c ∈ chunksOfAux n fuel l → c ≠ [] := by
  intro fuel
  induction fuel with
  | zero => intro l c hc; simp [chunksOfAux] at hc
  | succ fuel ih =>
    intro l c hc
    cases l with
    | nil => simp [chunksOfAux] at hc
    | cons x xs =>
      simp only [chunksOfAux, List.mem_cons] at hc
      rcases hc with rfl | hc
      · cases n with
        | zero => omega
        | succ m => simp
      · exact ih _ c hc

theorem chunksOfAux_length {α : Type} (n : Nat) (hn : 0 < n) :
    ∀ (fuel : Nat) (l : List α), l.length ≤ fuel →
      (chunksOfAux n fuel l).length = (l.length + (n - 1)) / n := by
  intro fuel
  induction fuel with
  | zero =>
    intro l hl
    have hnil : l = [] := List.length_eq_zero.mp (Nat.le_zero.mp hl)
    subst hnil
    simp [chunksOfAux, Nat.div_eq_of_lt (show n - 1 < n by omega)]
  | succ fuel ih =>
    intro l hl
    cases l with
    | nil => simp [chunksOfAux, Nat.div_eq_of_lt (show n - 1 < n by omega)]
    | cons x xs =>
      simp only [List.length_cons] at hl
      simp only [chunksOfAux, List.length_cons]
      rw [ih ((x :: xs).drop n) (by simp only [List.length_drop, List.length_cons]; omega)]
      simp only [List.length_drop, List.length_cons]
      by_cases hge : n ≤ xs.length + 1
      · have h1 : xs.length + 1 + (n - 1) = (xs.length + 1 - n + (n - 1)) + n := by omega
        rw [h1, Nat.add_div_right _ hn]
      · have h2 : xs.length + 1 - n = 0 := by omega
        rw [h2]
        have hL : (0 + (n - 1)) / n = 0 := Nat.div_eq_of_lt (by omega)
        rw [hL]
        have hR : xs.length + 1 + (n - 1) = xs.length + n := by omega
        rw [hR, Nat.add_div_right _ hn, Nat.div_eq_of_lt (show xs.length < n by omega)]

theorem chunksOf_length {α : Type} (n : Nat) (hn : 0 < n) (l : List α) :
    (chunksOf n l).length = (l.length + (n - 1)) / n :=
  chunksOfAux_length n hn l.length l le_rfl

theorem chunksOfAux_last_lt {α : Type} (n : Nat) (hn : 0 < n) :
    ∀ (fuel : Nat) (l : List α) (c : List α), l.length ≤ fuel → l.length % n ≠ 0 →
      (chunksOfAux n fuel l).getLast? = some c → c.length < n := by
  intro fuel
  induction fuel with
  | zero =>
    intro l c hl hm _
    have hnil : l = [] := List.length_eq_zero.mp (Nat.le_zero.mp hl)
    subst hnil; simp at hm
  | succ fuel ih =>
    intro l c hl hm hc
    cases l with
    | nil => simp at hm
    | cons x xs =>
      simp only [List.length_cons] at hl hm
      have hdl : ((x :: xs).drop n).length ≤ fuel := by
        simp only [List.length_drop, List.length_cons]; omega
      simp only [chunksOfAux] at hc
      cases hdn : chunksOfAux n fuel ((x :: xs).drop n) with
      | nil =>
        have hs : ([(x :: xs).take n] : List (List α)).getLast? = some ((x :: xs).take n) := rfl
        rw [hdn, hs] at hc
        injection hc with hc
        have hdrop : (x :: xs).drop n = [] := (chunksOfAux_eq_nil n fuel _ hdl).mp hdn
        have hlen : xs.length + 1 ≤ n := by
          have h0 := List.drop_eq_nil_iff.mp hdrop
          simpa using h0
        have hne : xs.length + 1 ≠ n := by
          intro he; apply hm; rw [he]; exact Nat.mod_self n
        rw [← hc]
        simp only [List.length_take, List.length_cons]
        omega
      | cons c2 cs2 =>
        rw [hdn, List.getLast?_cons_cons] at hc
        have hmm : ((x :: xs).drop n).length % n ≠ 0 := by
          simp only [List.length_drop, List.length_cons]
          intro h0
          apply hm
          by_cases hge : n ≤ xs.length + 1
          · have he : xs.length + 1 = (xs.length + 1 - n) + n := by omega
            rw [he, Nat.add_mod_right]
            exact h0
          · exfalso
            have hdrop : (x :: xs).drop n = [] :=
              List.drop_eq_nil_iff.mpr (by simp only [List.length_cons]; omega)
            rw [hdrop] at hdn
            have hz : chunksOfAux n fuel ([] : List α) = [] := by cases fuel <;> rfl
            rw [hz] at hdn
            cases hdn
        exact ih _ c hdl hmm (by rw [hdn]; exact hc)

theorem chunksOf_last_lt {α : Type} (n : Nat) (hn : 0 < n) (l : List α) (c : List α)
    (hm : l.length % n ≠ 0) (hc : (chunksOf n l).getLast? = some c) : c.length < n :=
  chunksOfAux_last_lt n hn l.length l c le_rfl hm hc

theorem upsertTotal_append (l1 l2 : List Event) :
    upsertTotal (l1 ++ l2) = upsertTotal l1 + upsertTotal l2 := by
  simp [upsertTotal]

theorem numUpserts_append (l1 l2 : List Event) :
    numUpserts (l1 ++ l2) = numUpserts l1 + numUpserts l2 := by
  simp [numUpserts, List.countP_append]

theorem upsertEvents_all_upsert (calls : List (Option (List Point))) :
    ∀ e ∈ upsertEvents calls, ∃ pts, e = Event.upsert "knowledge_base" pts := by
  intro e he
  simp only [upsertEvents, List.mem_map] at he
  obtain ⟨a, _, rfl⟩ := he
  exact ⟨a, rfl⟩

theorem mem_upsertEvents (calls : List (Option (List Point))) (nm : String) (pts : List Point) :
    Event.upsert nm pts ∈ upsertEvents calls ↔ nm = "knowledge_base" ∧ some pts ∈ calls := by
  simp only [upsertEvents, List.mem_map, List.mem_filterMap, id_eq]
  constructor
  · rintro ⟨a, ⟨o, ho, rfl⟩, heq⟩
    injection heq with h1 h2
    exact ⟨h1.symm, h2 ▸ ho⟩
  · rintro ⟨rfl, hm⟩
    exact ⟨pts, ⟨some pts, hm, rfl⟩, rfl⟩

theorem upsertTotal_events (calls : List (Option (List Point))) :
    upsertTotal (upsertEvents calls) = ((calls.filterMap id).map List.length).sum := by
  simp only [upsertEvents, upsertTotal, List.map_map]
  congr 1

theorem numUpserts_events (calls : List (Option (List Point))) :
    numUpserts (upsertEvents calls) = (calls.filterMap id).length := by
  simp only [upsertEvents, numUpserts]
  rw [List.countP_map]
  simp [Function.comp_def]

/-- Correctness of one batch pass: on success, the produced points are in
bijection with the qualifying records of the batch (in particular the
counts partition the batch), and every produced point got its identifier
from `abs(hash(f"{text}_{time}"))` with its payload being the source
record. -/
theorem processBatch_spec (env : LoaderEnv) :
    ∀ (batch : List Json) (k : Nat) (pts : List Point) (j : Nat),
      processBatch env batch k = .ok (pts, j) →
      pts.length = (batch.filter qualifiesB).length ∧
      (batch.filter skippedB).length + pts.length = batch.length ∧
      ∀ p ∈ pts, ∃ t i, pyGet p.payload "text" = .ok t ∧
        p.id = ((env.hashFn (pyStr t ++ "_" ++ env.timeStr i)).natAbs : Int) := by
  intro batch
  induction batch with
  | nil =>
    intro k pts j h
    simp only [processBatch] at h
    injection h with h
    injection h with h1 h2
    subst h1
    simp
  | cons item rest ih =>
    intro k pts j h
    cases hc : pyContains item "text" with
    | error e => simp [processBatch, hc] at h
    | ok b =>
      have hq : qualifiesB item = b := by
        cases b <;> simp [qualifiesB, hc]
      have hs : skippedB item = !b := by
        cases b <;> simp [skippedB, hc]
      cases b with
      | false =>
        simp only [processBatch, hc] at h
        obtain ⟨h1, h2, h3⟩ := ih k pts j h
        refine ⟨?_, ?_, h3⟩
        · simp [List.filter_cons, hq, h1]
        · simp [List.filter_cons, hs]
          omega
      | true =>
        cases hg : pyGet item "text" with
        | error e => simp [processBatch, hc, hg] at h
        | ok t =>
          cases he : env.encode t with
          | error e => simp [processBatch, hc, hg, he] at h
          | ok emb =>
            cases hr : processBatch env rest (k + 1) with
            | error e => simp [processBatch, hc, hg, he, hr] at h
            | ok pr =>
              obtain ⟨pts', j'⟩ := pr
              simp only [processBatch, hc, hg, he, hr] at h
              injection h with h
              injection h with h1 h2
              subst h2
              obtain ⟨i1, i2, i3⟩ := ih (k + 1) pts' j' hr
              subst h1
              refine ⟨?_, ?_, ?_⟩
              · simp [List.filter_cons, hq, i1]
              · simp only [List.filter_cons, hs, Bool.not_true, List.length_cons]
                simp only [if_neg (by simp : ¬(false = true))]
                omega
              · intro p hp
                rcases List.mem_cons.mp hp with rfl | hp'
                · exact ⟨t, k, by simpa using hg, rfl⟩
                · exact i3 p hp'

/-- Every per-batch entry of the batch loop is either "no call" or an
upsert call with a non-empty point list whose points all carry
hash-of-text-and-time identifiers. -/
theorem runChunks_calls_shape (env : LoaderEnv) :
    ∀ (cs : List (List Json)) (k total : Nat), ∀ c ∈ (runChunks env cs k total).1,
      c = none ∨ ∃ pts, c = some pts ∧ pts ≠ [] ∧
        ∀ p ∈ pts, ∃ t i, pyGet p.payload "text" = .ok t ∧
          p.id = ((env.hashFn (pyStr t ++ "_" ++ env.timeStr i)).natAbs : Int) := by
  intro cs
  induction cs with
  | nil => intro k total c hc; simp [runChunks] at hc
  | cons batch rest ih =>
    intro k total c hc
    cases hpb : processBatch env batch k with
    | error e => simp [runChunks, hpb] at hc
    | ok pr =>
      obtain ⟨pts, j⟩ := pr
      cases hemp : pts.isEmpty with
      | true =>
        simp only [runChunks, hpb, hemp, if_true] at hc
        rcases List.mem_cons.mp hc with rfl | hc2
        · exact Or.inl rfl
        · exact ih j total c hc2
      | false =>
        simp only [runChunks, hpb, hemp, if_false, Bool.false_eq_true] at hc
        rcases List.mem_cons.mp hc with rfl | hc2
        · refine Or.inr ⟨pts, rfl, ?_, ?_⟩
          · intro hnil; subst hnil; simp at hemp
          · exact (processBatch_spec env batch k pts j hpb).2.2
        · exact ih j (total + pts.length) c hc2

/-- On a successful run of the batch loop: the final `total_processed`
accumulates exactly the sizes of the issued upsert calls, that sum equals
the number of qualifying records, skipped and qualifying records
partition the input, and the loop recorded one entry per batch. -/
theorem runChunks_ok_spec (env : LoaderEnv) :
    ∀ (cs : List (List Json)) (k total : Nat) (calls : List (Option (List Point))) (T : Nat),
      runChunks env cs k total = (calls, .ok T) →
      T = total + ((calls.filterMap id).map List.length).sum ∧
      ((calls.filterMap id).map List.length).sum = (cs.flatten.filter qualifiesB).length ∧
      (cs.flatten.filter skippedB).length + (cs.flatten.filter qualifiesB).length = cs.flatten.length ∧
      calls.length = cs.length := by
  intro cs
  induction cs with
  | nil =>
    intro k total calls T h
    simp only [runChunks, Prod.mk.injEq] at h
    obtain ⟨h1, h2⟩ := h
    injection h2 with h2
    subst h1; subst h2
    simp
  | cons batch rest ih =>
    intro k total calls T h
    cases hpb : processBatch env batch k with
    | error e => simp [runChunks, hpb] at h
    | ok pr =>
      obtain ⟨pts, j⟩ := pr
      obtain ⟨hb1, hb2, _⟩ := processBatch_spec env batch k pts j hpb
      cases hemp : pts.isEmpty with
      | true =>
        have hpts : pts = [] := List.isEmpty_iff.mp hemp
        subst hpts
        rcases hrec : runChunks env rest j total with ⟨calls2, res2⟩
        simp only [runChunks, hpb, hemp, if_true, hrec, Prod.mk.injEq] at h
        obtain ⟨h1, h2⟩ := h
        subst h1
        rw [h2] at hrec
        obtain ⟨i1, i2, i3, i4⟩ := ih j total calls2 T hrec
        simp only [List.length_nil] at hb1 hb2
        simp only [List.filterMap_cons, id_eq, List.flatten_cons, List.filter_append,
          List.length_append, List.length_cons]
        refine ⟨i1, ?_, ?_, by omega⟩
        · omega
        · omega
      | false =>
        rcases hrec : runChunks env rest j (total + pts.length) with ⟨calls2, res2⟩
        simp only [runChunks, hpb, hemp, if_false, Bool.false_eq_true, hrec, Prod.mk.injEq] at h
        obtain ⟨h1, h2⟩ := h
        subst h1
        rw [h2] at hrec
        obtain ⟨i1, i2, i3, i4⟩ := ih j (total + pts.length) calls2 T hrec
        simp only [List.filterMap_cons, id_eq, List.map_cons, List.sum_cons,
          List.flatten_cons, List.filter_append, List.length_append, List.length_cons]
        refine ⟨by omega, by omega, by omega, by omega⟩

/-- On a successful run, the per-batch call entry at each index matches
the qualifying-record count of the batch at that index: no call exactly
when the batch has no qualifying record, and otherwise a call carrying
one point per qualifying record. -/
theorem runChunks_ok_calls (env : LoaderEnv) :
    ∀ (cs : List (List Json)) (k total : Nat) (calls : List (Option (List Point))) (T : Nat),
      runChunks env cs k total = (calls, .ok T) →
      ∀ (i : Nat) (b : List Json) (c : Option (List Point)),
        cs.get? i = some b → calls.get? i = some c →
        (c = none ∧ (b.filter qualifiesB).length = 0) ∨
        (∃ pts, c = some pts ∧ pts ≠ [] ∧ pts.length = (b.filter qualifiesB).length) := by
  intro cs
  induction cs with
  | nil => intro k total calls T h i b c hb hc; simp at hb
  | cons batch rest ih =>
    intro k total calls T h i b c hb hc
    cases hpb : processBatch env batch k with
    | error e => simp [runChunks, hpb] at h
    | ok pr =>
      obtain ⟨pts, j⟩ := pr
      obtain ⟨hb1, _, _⟩ := processBatch_spec env batch k pts j hpb
      cases hemp : pts.isEmpty with
      | true =>
        have hpts : pts = [] := List.isEmpty_iff.mp hemp
        subst hpts
        rcases hrec : runChunks env rest j total with ⟨calls2, res2⟩
        simp only [runChunks, hpb, hemp, if_true, hrec, Prod.mk.injEq] at h
        obtain ⟨h1, h2⟩ := h
        subst h1
        rw [h2] at hrec
        cases i with
        | zero =>
          simp only [List.get?_cons_zero] at hb hc
          injection hb with hb; injection hc with hc
          subst hb; subst hc
          exact Or.inl ⟨rfl, by simpa using hb1.symm⟩
        | succ i2 =>
          simp only [List.get?_cons_succ] at hb hc
          exact ih j total calls2 T hrec i2 b c hb hc
      | false =>
        rcases hrec : runChunks env rest j (total + pts.length) with ⟨calls2, res2⟩
        simp only [runChunks, hpb, hemp, if_false, Bool.false_eq_true, hrec, Prod.mk.injEq] at h
        obtain ⟨h1, h2⟩ := h
        subst h1
        rw [h2] at hrec
        cases i with
        | zero =>
          simp only [List.get?_cons_zero] at hb hc
          injection hb with hb; injection hc with hc
          subst hb; subst hc
          refine Or.inr ⟨pts, rfl, ?_, hb1⟩
          intro hnil; subst hnil; simp at hemp
        | succ i2 =>
          simp only [List.get?_cons_succ] at hb hc
          exact ih j (total + pts.length) calls2 T hrec i2 b c hb hc

/-- A non-blank line that fails to parse makes `load_jsonl` fail as a
whole. -/
theorem load_jsonl_error_of_bad_line (loads : String → Except String Json) :
    ∀ (lines : List String) (line : String) (e : String), line ∈ lines →
      isBlankLine line = false → loads line = .error e →
      ∃ msg, load_jsonl loads lines = .error msg := by
  intro lines
  induction lines with
  | nil => intro line e h; simp at h
  | cons l rest ih =>
    intro line e hmem hbl hle
    cases hbl2 : isBlankLine l with
    | true =>
      rcases List.mem_cons.mp hmem with rfl | hmem2
      · rw [hbl2] at hbl; cases hbl
      · obtain ⟨msg, hmsg⟩ := ih line e hmem2 hbl hle
        exact ⟨msg, by simp [load_jsonl, hbl2, hmsg]⟩
    | false =>
      cases hl0 : loads l with
      | error e0 => exact ⟨e0, by simp [load_jsonl, hbl2, hl0]⟩
      | ok jv =>
        rcases List.mem_cons.mp hmem with rfl | hmem2
        · rw [hle] at hl0; cases hl0
        · obtain ⟨msg, hmsg⟩ := ih line e hmem2 hbl hle
          exact ⟨msg, by simp [load_jsonl, hbl2, hl0, hmsg]⟩

/-- Structure of a full loader run once loading succeeded: the trace is
the recreate call, then the upsert calls of the batch loop, then (on
success only) the collection-info call; the run result is the loop
result. -/
theorem loader_main_eq (env : LoaderEnv) (lines : List String) (data : List Json)
    (calls : List (Option (List Point))) (res : Except String Nat)
    (hld : load_jsonl env.loads lines = .ok data)
    (hrc : runChunks env (chunksOf 100 data) 0 0 = (calls, res)) :
    loader_main env lines =
      (Event.recreate_collection "knowledge_base" 384 "Cosine" ::
        (upsertEvents calls ++
          match res with
          | .ok _ => [Event.get_collection "knowledge_base"]
          | .error _ => []), res) := by
  cases res with
  | ok total => simp [loader_main, hld, hrc]
  | error e => simp [loader_main, hld, hrc]

/-- Structure of a loader run whose loading failed: nothing happened. -/
theorem loader_main_load_error (env : LoaderEnv) (lines : List String) (e : String)
    (hld : load_jsonl env.loads lines = .error e) :
    loader_main env lines = ([], .error e) := by
  simp [loader_main, hld]

/-- A record marked skipped by the loader's test is not a qualifying
record. -/
theorem skipped_not_qualifies (a : Json) (h : skippedB a = true) : qualifiesB a = false := by
  unfold skippedB at h
  unfold qualifiesB
  cases hc : pyContains a "text" with
  | error e => rw [hc] at h
  | ok b =>
    rw [hc] at h
    cases b with
    | true => cases h
    | false => rfl

/-- Every upsert call recorded in a loader trace carries a non-empty point
list, and each of its points has payload the source record and identifier
`abs(hash(f"{text}_{time}"))`. -/
theorem trace_upsert_points (env : LoaderEnv) (lines : List String) (tr : List Event)
    (res : Except String Nat) (nm : String) (pts : List Point)
    (hrun : loader_main env lines = (tr, res)) (hmem : Event.upsert nm pts ∈ tr) :
    pts ≠ [] ∧ ∀ p ∈ pts, ∃ t i, pyGet p.payload "text" = .ok t ∧
      p.id = ((env.hashFn (pyStr t ++ "_" ++ env.timeStr i)).natAbs : Int) := by
  cases hld : load_jsonl env.loads lines with
  | error e =>
    rw [loader_main_load_error env lines e hld] at hrun
    injection hrun with h1 h2
    rw [← h1] at hmem
    simp at hmem
  | ok data =>
    rcases hrc : runChunks env (chunksOf 100 data) 0 0 with ⟨calls, res2⟩
    rw [loader_main_eq env lines data calls res2 hld hrc] at hrun
    injection hrun with h1 h2
    rw [← h1] at hmem
    rcases List.mem_cons.mp hmem with heq | hmem2
    · cases heq
    · rcases List.mem_append.mp hmem2 with hue | htail
      · have hsome : some pts ∈ calls := ((mem_upsertEvents calls nm pts).mp hue).2
        obtain ⟨i, hi⟩ := List.mem_iff_get?.mp hsome
        have hcalls : calls = (runChunks env (chunksOf 100 data) 0 0).1 := by rw [hrc]
        rw [hcalls] at hsome
        rcases runChunks_calls_shape env (chunksOf 100 data) 0 0 (some pts) hsome with hnone | ⟨pts2, heq2, hne, hshape⟩
        · cases hnone
        · injection heq2 with heq2
          subst heq2
          exact ⟨hne, hshape⟩
      · exfalso
        cases res2 <;> simp_all

/-- Claim C1, amended: for every loader run that completes successfully,
the number of upserted points equals the number of input records in which
the loader's membership test finds a `"text"` field (whether or not its
value is empty), that number is also the reported `total_processed`, and
the skipped-record count plus the upserted count equals the total record
count. -/
theorem claim_C1 (env : LoaderEnv) (lines : List String) (data : List Json)
    (tr : List Event) (total : Nat)
    (hld : load_jsonl env.loads lines = .ok data)
    (hrun : loader_main env lines = (tr, .ok total)) :
    upsertTotal tr = (data.filter qualifiesB).length ∧
    total = (data.filter qualifiesB).length ∧
    (data.filter skippedB).length + total = data.length := by
  rcases hrc : runChunks env (chunksOf 100 data) 0 0 with ⟨calls, res⟩
  rw [loader_main_eq env lines data calls res hld hrc] at hrun
  injection hrun with h1 h2
  subst h2
  obtain ⟨i1, i2, i3, _⟩ := runChunks_ok_spec env (chunksOf 100 data) 0 0 calls total hrc
  rw [chunksOf_join 100 (by omega) data] at i2 i3
  have htr : upsertTotal tr = upsertTotal (upsertEvents calls) := by
    rw [← h1]
    simp [upsertTotal, List.sum_append]
  rw [htr, upsertTotal_events calls, i2]
  exact ⟨rfl, by omega, by omega⟩

/-- Claim C1 as stated is false on the code: for the one-record input file
`{"text": ""}` there are zero records with a non-empty text field, yet the
loader upserts one point (the test is key presence, not non-emptiness). -/
theorem claim_C1_counterexample :
    load_jsonl exEnv.loads ["n"] = .ok [Json.obj [("text", Json.str "")]] ∧
    hasNonemptyTextB (Json.obj [("text", Json.str "")]) = false ∧
    (loader_main exEnv ["n"]).2 = .ok 1 ∧
    upsertTotal (loader_main exEnv ["n"]).1 = 1 ∧
    (1 : Nat) ≠ 0 :=
  ⟨rfl, rfl, rfl, rfl, by decide⟩

/-- Witness for `claim_C1` at the two-record input file with one record
carrying a text field and one without. -/
theorem claim_C1_witness :
    upsertTotal (loader_main exEnv ["t", "e"]).1 =
      (List.filter qualifiesB
        [Json.obj [("text", Json.str "x")], Json.obj [("foo", Json.str "bar")]]).length ∧
    1 = (List.filter qualifiesB
        [Json.obj [("text", Json.str "x")], Json.obj [("foo", Json.str "bar")]]).length ∧
    (List.filter skippedB
        [Json.obj [("text", Json.str "x")], Json.obj [("foo", Json.str "bar")]]).length + 1 =
      ([Json.obj [("text", Json.str "x")], Json.obj [("foo", Json.str "bar")]] : List Json).length :=
  claim_C1 exEnv ["t", "e"]
    [Json.obj [("text", Json.str "x")], Json.obj [("foo", Json.str "bar")]]
    (loader_main exEnv ["t", "e"]).1 1 rfl rfl

/-- Claim C2, amended: for every loader run that completes successfully,
the sum of the point counts over all upsert calls equals the number N of
qualifying records; and when every input record qualifies, the loader
issues exactly ceil(N/100) upsert calls. (As stated the ceil(N/100) count
is false when non-qualifying records are interleaved, because batching
slices the whole input, not the qualifying records; see the
counterexample.) -/
theorem claim_C2 (env : LoaderEnv) (lines : List String) (data : List Json)
    (tr : List Event) (total : Nat)
    (hld : load_jsonl env.loads lines = .ok data)
    (hrun : loader_main env lines = (tr, .ok total)) :
    upsertTotal tr = (data.filter qualifiesB).length ∧
    (data.all qualifiesB = true →
      numUpserts tr = ((data.filter qualifiesB).length + 99) / 100) := by
  rcases hrc : runChunks env (chunksOf 100 data) 0 0 with ⟨calls, res⟩
  rw [loader_main_eq env lines data calls res hld hrc] at hrun
  injection hrun with h1 h2
  subst h2
  obtain ⟨i1, i2, i3, i4⟩ := runChunks_ok_spec env (chunksOf 100 data) 0 0 calls total hrc
  rw [chunksOf_join 100 (by omega) data] at i2 i3
  constructor
  · have htr : upsertTotal tr = upsertTotal (upsertEvents calls) := by
      rw [← h1]
      simp [upsertTotal, List.sum_append]
    rw [htr, upsertTotal_events calls, i2]
  · intro hall
    have hnu : numUpserts tr = numUpserts (upsertEvents calls) := by
      rw [← h1]
      simp [numUpserts, List.countP_append, List.countP_cons]
    have hnone : ∀ c ∈ calls, c ≠ none := by
      intro c hc
      obtain ⟨i, hi⟩ := List.mem_iff_get?.mp hc
      have hilt : i < calls.length := by
        rcases List.get?_eq_some.mp hi with ⟨hlt, _⟩
        exact hlt
      have hics : i < (chunksOf 100 data).length := by omega
      have hib : (chunksOf 100 data).get? i = some ((chunksOf 100 data).get ⟨i, hics⟩) :=
        List.get?_eq_get hics
      have hbmem : (chunksOf 100 data).get ⟨i, hics⟩ ∈ chunksOf 100 data := List.get_mem _ _ hics
      rcases runChunks_ok_calls env (chunksOf 100 data) 0 0 calls total hrc i _ c hib hi with
        ⟨hcn, hq0⟩ | ⟨pts, hcp, _, _⟩
      · exfalso
        have hbne : (chunksOf 100 data).get ⟨i, hics⟩ ≠ [] :=
          chunksOfAux_ne_nil 100 (by omega) data.length data _ hbmem
        obtain ⟨x, hx⟩ := List.exists_mem_of_ne_nil _ hbne
        have hxd : x ∈ data := by
          rw [← chunksOf_join 100 (by omega) data]
          exact List.mem_flatten.mpr ⟨_, hbmem, hx⟩
        have hxq : qualifiesB x = true := List.all_eq_true.mp hall x hxd
        have : x ∈ List.filter qualifiesB ((chunksOf 100 data).get ⟨i, hics⟩) :=
          List.mem_filter.mpr ⟨hx, hxq⟩
        have := List.length_pos_of_mem this
        omega
      · rw [hcp]; intro hcon; cases hcon
    rw [hnu, numUpserts_events calls, filterMap_id_length_of_no_none calls hnone, i4,
      chunksOf_length 100 (by omega) data]
    have hfe : List.filter qualifiesB data = data :=
      List.filter_eq_self.mpr (List.all_eq_true.mp hall)
    rw [hfe]

/-- Claim C2 as stated is false on the code: a 101-record file whose first
and last records qualify (N = 2 qualifying records) produces 2 upsert
calls, not ceil(2/100) = 1, because batching slices the whole input. -/
theorem claim_C2_counterexample :
    load_jsonl exEnv.loads ("t" :: (List.replicate 99 "e" ++ ["t"])) = .ok exData2 ∧
    (exData2.filter qualifiesB).length = 2 ∧
    (loader_main exEnv ("t" :: (List.replicate 99 "e" ++ ["t"]))).2 = .ok 2 ∧
    numUpserts (loader_main exEnv ("t" :: (List.replicate 99 "e" ++ ["t"]))).1 = 2 ∧
    (2 + 99) / 100 = 1 ∧
    (2 : Nat) ≠ 1 :=
  ⟨rfl, rfl, rfl, rfl, rfl, by decide⟩

/-- Witness for `claim_C2` at a three-record input file in which every
record qualifies. -/
theorem claim_C2_witness :
    upsertTotal (loader_main exEnv ["t", "t", "t"]).1 =
      (List.filter qualifiesB (List.replicate 3 (Json.obj [("text", Json.str "x")]))).length ∧
    ((List.replicate 3 (Json.obj [("text", Json.str "x")])).all qualifiesB = true →
      numUpserts (loader_main exEnv ["t", "t", "t"]).1 =
        ((List.filter qualifiesB (List.replicate 3 (Json.obj [("text", Json.str "x")]))).length + 99) / 100) :=
  claim_C2 exEnv ["t", "t", "t"] (List.replicate 3 (Json.obj [("text", Json.str "x")]))
    (loader_main exEnv ["t", "t", "t"]).1 3 rfl rfl

/-- Claim C3, amended: when the record count is not a multiple of 100 and
the trailing group of fewer than 100 records contains at least one record
with a text field, the loader issues an upsert call for that trailing
group (with fewer than 100 points). (As stated — unconditionally — the
claim is false: a trailing group whose records all lack the text field
produces no call; see the counterexample.) -/
theorem claim_C3 (env : LoaderEnv) (lines : List String) (data : List Json)
    (tr : List Event) (total : Nat) (lastChunk : List Json)
    (hld : load_jsonl env.loads lines = .ok data)
    (hrun : loader_main env lines = (tr, .ok total))
    (hmod : data.length % 100 ≠ 0)
    (hlast : (chunksOf 100 data).getLast? = some lastChunk)
    (hqual : lastChunk.any qualifiesB = true) :
    ∃ pts, (runChunks env (chunksOf 100 data) 0 0).1.getLast? = some (some pts) ∧
      Event.upsert "knowledge_base" pts ∈ tr ∧ pts ≠ [] ∧ pts.length < 100 := by
  rcases hrc : runChunks env (chunksOf 100 data) 0 0 with ⟨calls, res⟩
  rw [loader_main_eq env lines data calls res hld hrc] at hrun
  injection hrun with h1 h2
  subst h2
  obtain ⟨_, _, _, i4⟩ := runChunks_ok_spec env (chunksOf 100 data) 0 0 calls total hrc
  have hcs_ne : (chunksOf 100 data) ≠ [] := by
    intro hnil
    rw [hnil] at hlast
    cases hlast
  have hcs_pos : 0 < (chunksOf 100 data).length := List.length_pos.mpr hcs_ne
  have hlast_get : (chunksOf 100 data).get? ((chunksOf 100 data).length - 1) = some lastChunk := by
    rw [← List.getLast?_eq_get?]
    exact hlast
  have hcalls_pos : 0 < calls.length := by omega
  have hcalls_get : ∃ c, calls.get? (calls.length - 1) = some c := by
    have hlt : calls.length - 1 < calls.length := by omega
    exact ⟨calls.get ⟨calls.length - 1, hlt⟩, List.get?_eq_get hlt⟩
  obtain ⟨c, hc⟩ := hcalls_get
  have hidx : calls.length - 1 = (chunksOf 100 data).length - 1 := by omega
  rw [hidx] at hc
  rcases runChunks_ok_calls env (chunksOf 100 data) 0 0 calls total hrc
      ((chunksOf 100 data).length - 1) lastChunk c hlast_get hc with
    ⟨hcn, hq0⟩ | ⟨pts, hcp, hne, hlen⟩
  · exfalso
    rw [List.any_eq_true] at hqual
    obtain ⟨x, hx, hxq⟩ := hqual
    have hmemf : x ∈ List.filter qualifiesB lastChunk := List.mem_filter.mpr ⟨hx, hxq⟩
    have hpos : 0 < (List.filter qualifiesB lastChunk).length := List.length_pos_of_mem hmemf
    omega
  · subst hcp
    refine ⟨pts, ?_, ?_, hne, ?_⟩
    · show calls.getLast? = some (some pts)
      rw [List.getLast?_eq_get?, hidx]
      exact hc
    · rw [← h1]
      refine List.mem_cons_of_mem _ (List.mem_append_left _ ?_)
      exact (mem_upsertEvents calls "knowledge_base" pts).mpr ⟨rfl, List.get?_mem hc⟩
    · have hcl : lastChunk.length < 100 := chunksOf_last_lt 100 (by omega) data lastChunk hmod hlast
      have hfl : (List.filter qualifiesB lastChunk).length ≤ lastChunk.length :=
        List.length_filter_le _ _
      omega

/-- Claim C3 as stated is false on the code: a 101-record file whose
trailing record lacks the text field still has a record count that is not
a multiple of 100, yet no upsert call is issued for the trailing group
(the per-batch entry for the final batch is `none`, and only one upsert
call occurs in the whole run). -/
theorem claim_C3_counterexample :
    load_jsonl exEnv.loads (List.replicate 100 "t" ++ ["e"]) = .ok exData3 ∧
    exData3.length % 100 = 1 ∧
    (chunksOf 100 exData3).getLast? = some [Json.obj [("foo", Json.str "bar")]] ∧
    (loader_main exEnv (List.replicate 100 "t" ++ ["e"])).2 = .ok 100 ∧
    (runChunks exEnv (chunksOf 100 exData3) 0 0).1.getLast? = some none ∧
    numUpserts (loader_main exEnv (List.replicate 100 "t" ++ ["e"])).1 = 1 :=
  ⟨rfl, rfl, rfl, rfl, rfl, rfl⟩

/-- Witness for `claim_C3` at a one-record input file whose single
(trailing) record has a text field. -/
theorem claim_C3_witness :
    ∃ pts, (runChunks exEnv (chunksOf 100 [Json.obj [("text", Json.str "x")]]) 0 0).1.getLast? =
        some (some pts) ∧
      Event.upsert "knowledge_base" pts ∈ (loader_main exEnv ["t"]).1 ∧
      pts ≠ [] ∧ pts.length < 100 :=
  claim_C3 exEnv ["t"] [Json.obj [("text", Json.str "x")]] (loader_main exEnv ["t"]).1 1
    [Json.obj [("text", Json.str "x")]] rfl rfl (by decide) rfl rfl

/-- Claim C4: in every loader run, any upsert call in the trace is
preceded by the recreate-collection call on `knowledge_base` with vector
size 384 and Cosine distance (which sits at the head of the trace), and a
recreate-collection call never occurs anywhere but at the head — so no
upsert ever precedes it. -/
theorem claim_C4 (env : LoaderEnv) (lines : List String) (tr : List Event)
    (res : Except String Nat)
    (hrun : loader_main env lines = (tr, res)) :
    (∀ (i : Nat) (nm : String) (pts : List Point), tr.get? i = some (Event.upsert nm pts) →
      0 < i ∧ tr.get? 0 = some (Event.recreate_collection "knowledge_base" 384 "Cosine")) ∧
    (∀ (j : Nat) (nm : String) (sz : Nat) (d : String),
      tr.get? j = some (Event.recreate_collection nm sz d) → j = 0) := by
  cases hld : load_jsonl env.loads lines with
  | error e =>
    rw [loader_main_load_error env lines e hld] at hrun
    injection hrun with h1 h2
    constructor
    · intro i nm pts hi
      rw [← h1] at hi
      simp at hi
    · intro j nm sz d hj
      rw [← h1] at hj
      simp at hj
  | ok data =>
    rcases hrc : runChunks env (chunksOf 100 data) 0 0 with ⟨calls, res2⟩
    rw [loader_main_eq env lines data calls res2 hld hrc] at hrun
    injection hrun with h1 h2
    have hrest : ∀ e ∈ ((loader_main env lines).1.drop 1),
        (∃ pts, e = Event.upsert "knowledge_base" pts) ∨
        e = Event.get_collection "knowledge_base" := by
      intro e he
      rw [loader_main_eq env lines data calls res2 hld hrc] at he
      simp only [List.drop_one, List.tail_cons] at he
      rcases List.mem_append.mp he with hue | htail
      · exact Or.inl (upsertEvents_all_upsert calls e hue)
      · right
        cases res2 with
        | ok _ => simpa using htail
        | error _ => simp at htail
    constructor
    · intro i nm pts hi
      cases i with
      | zero =>
        rw [← h1, List.get?_cons_zero] at hi
        injection hi with hi
        cases hi
      | succ i2 =>
        refine ⟨Nat.succ_pos i2, ?_⟩
        rw [← h1]
        rfl
    · intro j nm sz d hj
      cases j with
      | zero => rfl
      | succ j2 =>
        exfalso
        rw [← h1, List.get?_cons_succ] at hj
        have hm : Event.recreate_collection nm sz d ∈
            ((loader_main env lines).1.drop 1) := by
          rw [loader_main_eq env lines data calls res2 hld hrc]
          simp only [List.drop_one, List.tail_cons]
          exact List.get?_mem hj
        rcases hrest _ hm with ⟨pts2, he⟩ | he
        · cases he
        · cases he

/-- Witness for `claim_C4` at a one-record input file. -/
theorem claim_C4_witness :
    (∀ (i : Nat) (nm : String) (pts : List Point),
      (loader_main exEnv ["t"]).1.get? i = some (Event.upsert nm pts) →
      0 < i ∧ (loader_main exEnv ["t"]).1.get? 0 =
        some (Event.recreate_collection "knowledge_base" 384 "Cosine")) ∧
    (∀ (j : Nat) (nm : String) (sz : Nat) (d : String),
      (loader_main exEnv ["t"]).1.get? j = some (Event.recreate_collection nm sz d) → j = 0) :=
  claim_C4 exEnv ["t"] (loader_main exEnv ["t"]).1 (.ok 1) rfl

/-- Claim C7, amended: if some non-blank line of the input file fails to
parse as JSON, the whole run fails during loading, and nothing at all is
done — no collection recreation, no processing, no upsert (the trace is
empty). The original claim's wording "not a valid JSON object" is wider
and false: a line that is valid JSON without being an object (for example
`5`) passes loading and only crashes the loop later, after earlier
batches were already upserted; see the counterexample. -/
theorem claim_C7 (env : LoaderEnv) (lines : List String) (line e : String)
    (hmem : line ∈ lines) (hbl : isBlankLine line = false)
    (hparse : env.loads line = .error e) :
    ∃ msg, loader_main env lines = ([], .error msg) := by
  obtain ⟨msg, hmsg⟩ := load_jsonl_error_of_bad_line env.loads lines line e hmem hbl hparse
  exact ⟨msg, loader_main_load_error env lines msg hmsg⟩

/-- Claim C7 as stated is false on the code: the 101-line file with 100
records carrying a text field followed by the line `5` (valid JSON, not an
object) fails as a whole, but only after the first batch of 100 records
was upserted — so records from the file were processed and upserted. -/
theorem claim_C7_counterexample :
    "5" ∈ (List.replicate 100 "t" ++ ["5"]) ∧
    isBlankLine "5" = false ∧
    exEnv.loads "5" = .ok (Json.num 5) ∧
    isObjB (Json.num 5) = false ∧
    (loader_main exEnv (List.replicate 100 "t" ++ ["5"])).2 =
      .error "TypeError: argument is not iterable" ∧
    upsertTotal (loader_main exEnv (List.replicate 100 "t" ++ ["5"])).1 = 100 ∧
    (100 : Nat) ≠ 0 :=
  ⟨by simp, rfl, rfl, rfl, rfl, rfl, by decide⟩

/-- Witness for `claim_C7` at a one-line file whose line fails to parse. -/
theorem claim_C7_witness :
    ∃ msg, loader_main exEnv ["bad"] = ([], .error msg) :=
  claim_C7 exEnv ["bad"] "bad" "Expecting value: line 1 column 1 (char 0)" (by simp) rfl rfl

/-- Claim C8: every upserted point's identifier is
`abs(hash(f"{text}_{time}"))` — the absolute value of the hash of the
record's text value concatenated by an underscore with a wall-clock
reading taken at encoding time; and the identifier is not a pure function
of the record's content: two runs over the same one-record file that
differ only in their wall clock assign different identifiers (3 versus 4
under the length-hash example environments). -/
theorem claim_C8 (env : LoaderEnv) (lines : List String) (tr : List Event)
    (res : Except String Nat) (nm : String) (pts : List Point) (p : Point)
    (hrun : loader_main env lines = (tr, res))
    (hmem : Event.upsert nm pts ∈ tr) (hp : p ∈ pts) :
    (∃ t i, pyGet p.payload "text" = .ok t ∧
      p.id = ((env.hashFn (pyStr t ++ "_" ++ env.timeStr i)).natAbs : Int)) ∧
    pointIds (loader_main exEnv ["t"]).1 = [3] ∧
    pointIds (loader_main exEnvLate ["t"]).1 = [4] ∧
    (3 : Int) ≠ 4 := by
  refine ⟨?_, rfl, rfl, by decide⟩
  exact (trace_upsert_points env lines tr res nm pts hrun hmem).2 p hp

/-- Witness for `claim_C8` at the one-record input file. -/
theorem claim_C8_witness :
    (∃ t i, pyGet (Point.mk 3 [0] (Json.obj [("text", Json.str "x")])).payload "text" = .ok t ∧
      (Point.mk 3 [0] (Json.obj [("text", Json.str "x")])).id =
        ((exEnv.hashFn (pyStr t ++ "_" ++ exEnv.timeStr i)).natAbs : Int)) ∧
    pointIds (loader_main exEnv ["t"]).1 = [3] ∧
    pointIds (loader_main exEnvLate ["t"]).1 = [4] ∧
    (3 : Int) ≠ 4 :=
  claim_C8 exEnv ["t"]
    [Event.recreate_collection "knowledge_base" 384 "Cosine",
     Event.upsert "knowledge_base" [Point.mk 3 [0] (Json.obj [("text", Json.str "x")])],
     Event.get_collection "knowledge_base"]
    (.ok 1) "knowledge_base" [Point.mk 3 [0] (Json.obj [("text", Json.str "x")])]
    (Point.mk 3 [0] (Json.obj [("text", Json.str "x")])) rfl (by simp) (by simp)

/-- Claim C9 (implicit): every vector-point identifier the loader assigns
is non-negative, because the absolute value of the hash is taken. -/
theorem claim_C9 (env : LoaderEnv) (lines : List String) (tr : List Event)
    (res : Except String Nat) (nm : String) (pts : List Point) (p : Point)
    (hrun : loader_main env lines = (tr, res))
    (hmem : Event.upsert nm pts ∈ tr) (hp : p ∈ pts) :
    0 ≤ p.id := by
  obtain ⟨t, i, _, hid⟩ := (trace_upsert_points env lines tr res nm pts hrun hmem).2 p hp
  rw [hid]
  exact Int.natCast_nonneg _

/-- Witness for `claim_C9` at the one-record input file. -/
theorem claim_C9_witness :
    0 ≤ (Point.mk 3 [0] (Json.obj [("text", Json.str "x")])).id :=
  claim_C9 exEnv ["t"]
    [Event.recreate_collection "knowledge_base" 384 "Cosine",
     Event.upsert "knowledge_base" [Point.mk 3 [0] (Json.obj [("text", Json.str "x")])],
     Event.get_collection "knowledge_base"]
    (.ok 1) "knowledge_base" [Point.mk 3 [0] (Json.obj [("text", Json.str "x")])]
    (Point.mk 3 [0] (Json.obj [("text", Json.str "x")])) rfl (by simp) (by simp)

/-- Claim C10 (implicit): the loader never issues an upsert call with an
empty point list — every upsert event in every trace carries at least one
point — and a batch whose records are all skipped (no text field) yields
an empty point list, hence no call. -/
theorem claim_C10 (env : LoaderEnv) (lines : List String) (tr : List Event)
    (res : Except String Nat)
    (hrun : loader_main env lines = (tr, res)) :
    (∀ (nm : String) (pts : List Point), Event.upsert nm pts ∈ tr → pts ≠ []) ∧
    (∀ (batch : List Json) (k j : Nat) (pts : List Point),
      batch.all skippedB = true → processBatch env batch k = .ok (pts, j) → pts = []) := by
  constructor
  · intro nm pts hmem
    exact (trace_upsert_points env lines tr res nm pts hrun hmem).1
  · intro batch k j pts hall hpb
    obtain ⟨h1, _, _⟩ := processBatch_spec env batch k pts j hpb
    have hfil : List.filter qualifiesB batch = [] := by
      rw [List.filter_eq_nil_iff]
      intro a ha
      rw [skipped_not_qualifies a (List.all_eq_true.mp hall a ha)]
      simp
    rw [hfil] at h1
    exact List.length_eq_zero.mp (by simpa using h1)

/-- Witness for `claim_C10` at the two-record input file. -/
theorem claim_C10_witness :
    (∀ (nm : String) (pts : List Point),
      Event.upsert nm pts ∈ (loader_main exEnv ["t", "e"]).1 → pts ≠ []) ∧
    (∀ (batch : List Json) (k j : Nat) (pts : List Point),
      batch.all skippedB = true → processBatch exEnv batch k = .ok (pts, j) → pts = []) :=
  claim_C10 exEnv ["t", "e"] (loader_main exEnv ["t", "e"]).1 (.ok 1) rfl

theorem exceptOk_exists {α : Type} (r : Except String α) (h : exceptOk r = true) :
    ∃ a, r = .ok a := by
  cases r with
  | ok a => exact ⟨a, rfl⟩
  | error e => simp [exceptOk] at h

theorem score_format_ok (fs : List (String × Json)) (h : goodEntryB (.obj fs) = true) :
    exceptOk (pyFormat4f ((fs.lookup "score").getD (.num 0))) = true := by
  simp only [goodEntryB, Bool.and_eq_true] at h
  obtain ⟨h1, _⟩ := h
  cases hsc : fs.lookup "score" with
  | none => simp [hsc, pyFormat4f, exceptOk]
  | some v =>
    rw [hsc] at h1
    cases v with
    | num n => simp [hsc, pyFormat4f, exceptOk]
    | null => simp at h1
    | bool b => simp at h1
    | str s => simp at h1
    | arr xs => simp at h1
    | obj fs2 => simp at h1

theorem text_slice_ok (fs : List (String × Json)) (n : Nat) (sfx : String)
    (h : goodEntryB (.obj fs) = true) :
    exceptOk (pySliceConcat ((fs.lookup "text").getD (.str "")) n sfx) = true := by
  simp only [goodEntryB, Bool.and_eq_true] at h
  obtain ⟨_, h2⟩ := h
  cases ht : fs.lookup "text" with
  | none => simp [ht, pySliceConcat, exceptOk]
  | some v =>
    rw [ht] at h2
    cases v with
    | str s => simp [ht, pySliceConcat, exceptOk]
    | null => simp at h2
    | bool b => simp at h2
    | num m => simp at h2
    | arr xs => simp at h2
    | obj fs2 => simp at h2

theorem retrieve_rows_ok :
    ∀ (xs : List Json) (i : Nat), xs.all goodEntryB = true →
      exceptOk (retrieve_rows i xs) = true := by
  intro xs
  induction xs with
  | nil => intro i _; rfl
  | cons r rs ih =>
    intro i h
    simp only [List.all_cons, Bool.and_eq_true] at h
    obtain ⟨hr, hrs⟩ := h
    cases r with
    | obj fs =>
      obtain ⟨s1, hs1⟩ := exceptOk_exists _ (score_format_ok fs hr)
      obtain ⟨s2, hs2⟩ := exceptOk_exists _ (text_slice_ok fs 100 "..." hr)
      obtain ⟨v, hv⟩ := exceptOk_exists _ (ih (i + 1) hrs)
      simp [retrieve_rows, pyGetD, hs1, hs2, hv, exceptOk]
    | null => simp [goodEntryB] at hr
    | bool b => simp [goodEntryB] at hr
    | num m => simp [goodEntryB] at hr
    | str s => simp [goodEntryB] at hr
    | arr ys => simp [goodEntryB] at hr

theorem retrieve_divs_ok :
    ∀ (xs : List Json) (i : Nat), xs.all goodEntryB = true →
      exceptOk (retrieve_divs i xs) = true := by
  intro xs
  induction xs with
  | nil => intro i _; rfl
  | cons r rs ih =>
    intro i h
    simp only [List.all_cons, Bool.and_eq_true] at h
    obtain ⟨hr, hrs⟩ := h
    cases r with
    | obj fs =>
      obtain ⟨s1, hs1⟩ := exceptOk_exists _ (score_format_ok fs hr)
      obtain ⟨s2, hs2⟩ := exceptOk_exists _ (text_slice_ok fs 150 "..." hr)
      obtain ⟨v, hv⟩ := exceptOk_exists _ (ih (i + 1) hrs)
      simp [retrieve_divs, pyGetD, hs1, hs2, hv, exceptOk]
    | null => simp [goodEntryB] at hr
    | bool b => simp [goodEntryB] at hr
    | num m => simp [goodEntryB] at hr
    | str s => simp [goodEntryB] at hr
    | arr ys => simp [goodEntryB] at hr

theorem context_rows_ok :
    ∀ (xs : List Json) (i : Nat), xs.all goodEntryB = true →
      exceptOk (context_rows i xs) = true := by
  intro xs
  induction xs with
  | nil => intro i _; rfl
  | cons r rs ih =>
    intro i h
    simp only [List.all_cons, Bool.and_eq_true] at h
    obtain ⟨hr, hrs⟩ := h
    cases r with
    | obj fs =>
      obtain ⟨s1, hs1⟩ := exceptOk_exists _ (score_format_ok fs hr)
      obtain ⟨v, hv⟩ := exceptOk_exists _ (ih (i + 1) hrs)
      simp [context_rows, pyGetD, hs1, hv, exceptOk]
    | null => simp [goodEntryB] at hr
    | bool b => simp [goodEntryB] at hr
    | num m => simp [goodEntryB] at hr
    | str s => simp [goodEntryB] at hr
    | arr ys => simp [goodEntryB] at hr

/-- All seven per-endpoint derivations of `query_all_endpoints` succeed on
a well-formed result object (in particular on every structured error
object). -/
theorem renderers_ok (q : String) (j : Json) (h : wellFormedResult j = true) :
    exceptOk (retrieve_df_of j) = true ∧
    exceptOk (retrieve_html_of j) = true ∧
    exceptOk (generate_html_of j) = true ∧
    exceptOk (rag_html_of j) = true ∧
    exceptOk (generate_df_of q j) = true ∧
    exceptOk (rag_df_of q j) = true ∧
    exceptOk (context_df_of j) = true := by
  cases j with
  | null => simp [wellFormedResult] at h
  | bool b => simp [wellFormedResult] at h
  | num n => simp [wellFormedResult] at h
  | str s => simp [wellFormedResult] at h
  | arr xs => simp [wellFormedResult] at h
  | obj fs =>
    cases hany : fs.any (fun p => p.1 == "error") with
    | true =>
      obtain ⟨ev, hev⟩ := any_key_lookup "error" fs hany
      refine ⟨?_, ?_, ?_, ?_, ?_, ?_, ?_⟩ <;>
        simp [retrieve_df_of, retrieve_html_of, generate_html_of, rag_html_of,
          generate_df_of, rag_df_of, context_df_of, pyContains, pyGet, hany, hev, exceptOk]
    | false =>
      have hB : goodListB ((fs.lookup "results").getD (.arr [])) = true ∧
          goodListB ((fs.lookup "contexts").getD (.arr [])) = true := by
        simp only [wellFormedResult, hany, Bool.false_or, Bool.and_eq_true] at h
        exact h
      obtain ⟨hres, hctx⟩ := hB
      cases hgr : (fs.lookup "results").getD (.arr []) with
  | null => rw [hgr] at hres; simp [goodListB] at hres
  | bool b => rw [hgr] at hres; simp [goodListB] at hres
  | num n => rw [hgr] at hres; simp [goodListB] at hres
  | str s => rw [hgr] at hres; simp [goodListB] at hres
  | obj fs2 => rw [hgr] at hres; simp [goodListB] at hres
  | arr xs =>
    rw [hgr] at hres
    simp only [goodListB] at hres
    cases hgc : (fs.lookup "contexts").getD (.arr []) with
    | null => rw [hgc] at hctx; simp [goodListB] at hctx
    | bool b => rw [hgc] at hctx; simp [goodListB] at hctx
    | num n => rw [hgc] at hctx; simp [goodListB] at hctx
    | str s => rw [hgc] at hctx; simp [goodListB] at hctx
    | obj fs3 => rw [hgc] at hctx; simp [goodListB] at hctx
    | arr ys =>
      rw [hgc] at hctx
      simp only [goodListB] at hctx
      obtain ⟨v1, hv1⟩ := exceptOk_exists _ (retrieve_rows_ok xs 0 hres)
      obtain ⟨v2, hv2⟩ := exceptOk_exists _ (retrieve_divs_ok xs 0 hres)
      obtain ⟨v3, hv3⟩ := exceptOk_exists _ (context_rows_ok ys 0 hctx)
      refine ⟨?_, ?_, ?_, ?_, ?_, ?_, ?_⟩
      · cases hres2 : fs.any (fun p => p.1 == "results") with
        | false => simp [retrieve_df_of, pyContains, hany, hres2, exceptOk]
        | true =>
          simp [retrieve_df_of, pyContains, hany, hres2, pyGetD, hgr, pyIter, hv1, exceptOk]
      · simp [retrieve_html_of, pyContains, hany, pyGetD, hgr, pyIter, hv2, exceptOk]
      · simp [generate_html_of, pyContains, hany, pyGetD, exceptOk]
      · simp [rag_html_of, pyContains, hany, pyGetD, exceptOk]
      · simp [generate_df_of, pyContains, hany, pyGetD, exceptOk]
      · simp [rag_df_of, pyContains, hany, pyGetD, exceptOk]
      · cases hctx2 : fs.any (fun p => p.1 == "contexts") with
        | false => simp [context_df_of, pyContains, hany, hctx2, exceptOk]
        | true =>
          simp [context_df_of, pyContains, hany, hctx2, pyGetD, hgc, pyIter, hv3, exceptOk]

/-- Decomposition of a successful `query_all_endpoints` run: each returned
component is the output of its own per-endpoint derivation, which depends
only on that endpoint's result object (and the query). -/
theorem query_all_ok_parts (q : String) (o1 o2 o3 : HttpOutcome) (t : Int) (u : QueryOutputs)
    (h : query_all_endpoints q o1 o2 o3 t = .ok u) :
    retrieve_df_of (make_api_request "retrieve" q o1) = .ok u.retrieve_df ∧
    retrieve_html_of (make_api_request "retrieve" q o1) = .ok u.retrieve_html ∧
    generate_html_of (make_api_request "generate" q o2) = .ok u.generate_html ∧
    rag_html_of (make_api_request "rag" q o3) = .ok u.rag_html ∧
    generate_df_of q (make_api_request "generate" q o2) = .ok u.generate_df ∧
    rag_df_of q (make_api_request "rag" q o3) = .ok u.rag_df ∧
    context_df_of (make_api_request "rag" q o3) = .ok u.context_df := by
  simp only [query_all_endpoints] at h
  cases h1 : retrieve_df_of (make_api_request "retrieve" q o1) with
  | error e => simp only [h1] at h; cases h
  | ok a1 =>
    simp only [h1] at h
    cases h2 : retrieve_html_of (make_api_request "retrieve" q o1) with
    | error e => simp only [h2] at h; cases h
    | ok a2 =>
      simp only [h2] at h
      cases h3 : generate_html_of (make_api_request "generate" q o2) with
      | error e => simp only [h3] at h; cases h
      | ok a3 =>
        simp only [h3] at h
        cases h4 : rag_html_of (make_api_request "rag" q o3) with
        | error e => simp only [h4] at h; cases h
        | ok a4 =>
          simp only [h4] at h
          cases h5 : generate_df_of q (make_api_request "generate" q o2) with
          | error e => simp only [h5] at h; cases h
          | ok a5 =>
            simp only [h5] at h
            cases h6 : rag_df_of q (make_api_request "rag" q o3) with
            | error e => simp only [h6] at h; cases h
            | ok a6 =>
              simp only [h6] at h
              cases h7 : context_df_of (make_api_request "rag" q o3) with
              | error e => simp only [h7] at h; cases h
              | ok a7 =>
                simp only [h7] at h
                injection h with h
                subst h
                exact ⟨rfl, rfl, rfl, rfl, rfl, rfl, rfl⟩

/-- Claim C5, amended: `make_api_request` converts every per-endpoint
failure into a structured error object — a non-200 status into
`{"error": "API Error: <status>", "details": <raw body>}` and any raised
exception (timeout, transport failure, body that fails to parse) into
`{"error": "Request Error: <message>"}` — and never raises to its caller:
every outcome yields either the parsed 200 body or an object with an
`"error"` key. `query_all_endpoints` returns a rendered result for each
panel whenever each endpoint's result object is well formed, which every
failure conversion is. (The unconditional "always returns" part of the
claim is false: a 200 response whose JSON body is not an object makes
`query_all_endpoints` raise; see the counterexample.) -/
theorem claim_C5 (endpoint query bodyText msg q : String) (status : Nat)
    (pj : Except String Json) (o1 o2 o3 : HttpOutcome) (t : Int)
    (hs : status ≠ 200)
    (h1 : wellFormedResult (make_api_request "retrieve" q o1) = true)
    (h2 : wellFormedResult (make_api_request "generate" q o2) = true)
    (h3 : wellFormedResult (make_api_request "rag" q o3) = true) :
    make_api_request endpoint query (.response status bodyText pj) =
      .obj [("error", .str ("API Error: " ++ toString status)), ("details", .str bodyText)] ∧
    make_api_request endpoint query (.exn msg) =
      .obj [("error", .str ("Request Error: " ++ msg))] ∧
    (∀ out : HttpOutcome, hasErrorKeyB (make_api_request endpoint query out) = true ∨
      ∃ bt jv, out = .response 200 bt (.ok jv) ∧ make_api_request endpoint query out = jv) ∧
    (∃ u, query_all_endpoints q o1 o2 o3 t = .ok u) := by
  refine ⟨by simp [make_api_request, hs], rfl, ?_, ?_⟩
  · intro out
    cases out with
    | exn m => left; rfl
    | response st bt pj2 =>
      by_cases h200 : st = 200
      · subst h200
        cases pj2 with
        | ok jv =>
          right
          exact ⟨bt, jv, rfl, by simp [make_api_request]⟩
        | error e2 => left; rfl
      · left; simp [make_api_request, h200, hasErrorKeyB]
  · obtain ⟨b1, hb1⟩ := exceptOk_exists _ (renderers_ok q _ h1).1
    obtain ⟨b2, hb2⟩ := exceptOk_exists _ (renderers_ok q _ h1).2.1
    obtain ⟨b3, hb3⟩ := exceptOk_exists _ (renderers_ok q _ h2).2.2.1
    obtain ⟨b4, hb4⟩ := exceptOk_exists _ (renderers_ok q _ h3).2.2.2.1
    obtain ⟨b5, hb5⟩ := exceptOk_exists _ (renderers_ok q _ h2).2.2.2.2.1
    obtain ⟨b6, hb6⟩ := exceptOk_exists _ (renderers_ok q _ h3).2.2.2.2.2.1
    obtain ⟨b7, hb7⟩ := exceptOk_exists _ (renderers_ok q _ h3).2.2.2.2.2.2
    refine ⟨{ retrieve_html := b2, generate_html := b3, rag_html := b4,
              retrieve_df := b1, generate_df := b5, rag_df := b6, context_df := b7,
              status_msg := "Query completed in " ++ pyFormat2f t ++ " seconds" }, ?_⟩
    simp only [query_all_endpoints, hb1, hb2, hb3, hb4, hb5, hb6, hb7]

/-- Claim C5's "always returns a rendered result" is false on the code: a
200 response whose JSON body is the list `[1]` (not an object) is passed
through `make_api_request` unchanged, and `query_all_endpoints` then
raises (`.get` on a list) instead of returning outputs. -/
theorem claim_C5_counterexample :
    make_api_request "retrieve" "q" httpListBody = .arr [.num 1] ∧
    exceptOk (query_all_endpoints "q" httpListBody (.exn "timeout") (.exn "t2") 1) = false :=
  ⟨rfl, rfl⟩

/-- Witness for `claim_C5`: a 500 retrieve endpoint beside two successful
endpoints; the error is converted and the whole fan-out still renders. -/
theorem claim_C5_witness :
    make_api_request "retrieve" "q" (.response 500 "boom" (.error "nope")) =
      .obj [("error", .str "API Error: 500"), ("details", .str "boom")] ∧
    exceptOk (query_all_endpoints "q" httpRetrieveFail httpGenerateOk httpRagOk 2) = true := by
  have h := claim_C5 "retrieve" "q" "boom" "m" "q" 500 (.error "nope")
    httpRetrieveFail httpGenerateOk httpRagOk 2 (by decide) rfl rfl rfl
  refine ⟨h.1, ?_⟩
  obtain ⟨u, hu⟩ := h.2.2.2
  rw [hu]
  rfl

/-- Claim C6: the three panels are independent — each panel's rendered
content (HTML and tables) is a function of the query and that endpoint's
own outcome only, so two successful runs agreeing on endpoint i produce
identical panel-i content whatever the other endpoints returned; and in
particular, with a non-200 retrieve endpoint beside two successful
endpoints, the retrieve panel shows the converted error while the other
two panels show their normal content. -/
theorem claim_C6 (q : String) (o1 o2 o3 g2 a2 r3 a3 r4 g4 : HttpOutcome)
    (t t2 t3 t4 : Int) (u u2 u3 u4 : QueryOutputs)
    (h : query_all_endpoints q o1 o2 o3 t = .ok u)
    (hr : query_all_endpoints q o1 g2 a2 t2 = .ok u2)
    (hg : query_all_endpoints q r3 o2 a3 t3 = .ok u3)
    (ha : query_all_endpoints q r4 g4 o3 t4 = .ok u4) :
    (u.retrieve_html = u2.retrieve_html ∧ u.retrieve_df = u2.retrieve_df) ∧
    (u.generate_html = u3.generate_html ∧ u.generate_df = u3.generate_df) ∧
    (u.rag_html = u4.rag_html ∧ u.rag_df = u4.rag_df ∧ u.context_df = u4.context_df) ∧
    (∃ uc, query_all_endpoints "q" httpRetrieveFail httpGenerateOk httpRagOk 2 = .ok uc ∧
      uc.retrieve_html = "<h3>Vector DB Results</h3><p>Error: API Error: 500</p>" ∧
      uc.generate_html = "<h3>LLM Response (No Context)</h3><div style=\x27padding: 15px; border: 1px solid #ddd; border-radius: 5px; background-color: #f9f9f9;\x27><strong>Model:</strong> m1<br><br><p>ans g</p></div>" ∧
      uc.rag_html = "<h3>RAG-Enhanced Response</h3><div style=\x27padding: 15px; border: 1px solid #ddd; border-radius: 5px; background-color: #f9f9f9;\x27><strong>Model:</strong> m2<br><em>Used 2 context documents</em><br><br><p>ans r</p></div>") := by
  obtain ⟨p1, p2, p3, p4, p5, p6, p7⟩ := query_all_ok_parts q o1 o2 o3 t u h
  obtain ⟨q1, q2, _, _, _, _, _⟩ := query_all_ok_parts q o1 g2 a2 t2 u2 hr
  obtain ⟨_, _, g3, _, g5, _, _⟩ := query_all_ok_parts q r3 o2 a3 t3 u3 hg
  obtain ⟨_, _, _, s4, _, s6, s7⟩ := query_all_ok_parts q r4 g4 o3 t4 u4 ha
  refine ⟨⟨?_, ?_⟩, ⟨?_, ?_⟩, ⟨?_, ?_, ?_⟩, ?_⟩
  · exact Except.ok.inj (p2.symm.trans q2)
  · exact Except.ok.inj (p1.symm.trans q1)
  · exact Except.ok.inj (p3.symm.trans g3)
  · exact Except.ok.inj (p5.symm.trans g5)
  · exact Except.ok.inj (p4.symm.trans s4)
  · exact Except.ok.inj (p6.symm.trans s6)
  · exact Except.ok.inj (p7.symm.trans s7)
  · exact ⟨getOutput (query_all_endpoints "q" httpRetrieveFail httpGenerateOk httpRagOk 2),
      rfl, rfl, rfl, rfl⟩

/-- Witness for `claim_C6`: four concrete successful runs — a base run, a
run agreeing only on the retrieve outcome, one agreeing only on the
generate outcome, and one agreeing only on the rag outcome. -/
theorem claim_C6_witness :
    ((getOutput (query_all_endpoints "q" httpRetrieveFail httpGenerateOk httpRagOk 2)).retrieve_html =
      (getOutput (query_all_endpoints "q" httpRetrieveFail (.exn "x") (.exn "y") 5)).retrieve_html ∧
     (getOutput (query_all_endpoints "q" httpRetrieveFail httpGenerateOk httpRagOk 2)).retrieve_df =
      (getOutput (query_all_endpoints "q" httpRetrieveFail (.exn "x") (.exn "y") 5)).retrieve_df) ∧
    ((getOutput (query_all_endpoints "q" httpRetrieveFail httpGenerateOk httpRagOk 2)).generate_html =
      (getOutput (query_all_endpoints "q" httpRetrieveOk httpGenerateOk (.exn "z") 1)).generate_html ∧
     (getOutput (query_all_endpoints "q" httpRetrieveFail httpGenerateOk httpRagOk 2)).generate_df =
      (getOutput (query_all_endpoints "q" httpRetrieveOk httpGenerateOk (.exn "z") 1)).generate_df) ∧
    ((getOutput (query_all_endpoints "q" httpRetrieveFail httpGenerateOk httpRagOk 2)).rag_html =
      (getOutput (query_all_endpoints "q" (.exn "w") (.exn "v") httpRagOk 7)).rag_html ∧
     (getOutput (query_all_endpoints "q" httpRetrieveFail httpGenerateOk httpRagOk 2)).rag_df =
      (getOutput (query_all_endpoints "q" (.exn "w") (.exn "v") httpRagOk 7)).rag_df ∧
     (getOutput (query_all_endpoints "q" httpRetrieveFail httpGenerateOk httpRagOk 2)).context_df =
      (getOutput (query_all_endpoints "q" (.exn "w") (.exn "v") httpRagOk 7)).context_df) ∧
    (∃ uc, query_all_endpoints "q" httpRetrieveFail httpGenerateOk httpRagOk 2 = .ok uc ∧
      uc.retrieve_html = "<h3>Vector DB Results</h3><p>Error: API Error: 500</p>" ∧
      uc.generate_html = "<h3>LLM Response (No Context)</h3><div style=\x27padding: 15px; border: 1px solid #ddd; border-radius: 5px; background-color: #f9f9f9;\x27><strong>Model:</strong> m1<br><br><p>ans g</p></div>" ∧
      uc.rag_html = "<h3>RAG-Enhanced Response</h3><div style=\x27padding: 15px; border: 1px solid #ddd; border-radius: 5px; background-color: #f9f9f9;\x27><strong>Model:</strong> m2<br><em>Used 2 context documents</em><br><br><p>ans r</p></div>") :=
  claim_C6 "q" httpRetrieveFail httpGenerateOk httpRagOk (.exn "x") (.exn "y")
    httpRetrieveOk (.exn "z") (.exn "w") (.exn "v") 2 5 1 7
    (getOutput (query_all_endpoints "q" httpRetrieveFail httpGenerateOk httpRagOk 2))
    (getOutput (query_all_endpoints "q" httpRetrieveFail (.exn "x") (.exn "y") 5))
    (getOutput (query_all_endpoints "q" httpRetrieveOk httpGenerateOk (.exn "z") 1))
    (getOutput (query_all_endpoints "q" (.exn "w") (.exn "v") httpRagOk 7))
    rfl rfl rfl rfl
